import Mathlib

/-!
Shallow embedding of the tax-declaration platform's computation core:
the rule engine (condition evaluator, formula evaluator, action handlers,
seven-phase runner), the 270.00 XML projector, source-record ingestion
with checksum deduplication, and the declaration workflow operations.

Every definition is translated from the JavaScript sources.  JavaScript
numbers hold DB `NUMERIC(18,2)` amounts and JSON literals; they are
modelled as exact rationals (`ℚ`), abstracting the binary-float
representation.  JavaScript `Map`s and plain objects are modelled as
insertion-ordered association lists, mirroring their iteration order.
-/

/-- JavaScript runtime value, as found in JSON rule payloads, event rows
and metadata.  `undef` is JavaScript `undefined` (distinct from `null`:
a missing metadata path yields `undefined` while a SQL NULL yields
`null`).  Object and array values compare by reference in JS; distinct
literals are never `===`-equal, see `jsStrictEq`. -/
inductive JVal where
  | undef : JVal
  | null : JVal
  | bool (b : Bool) : JVal
  | num (q : ℚ) : JVal
  | str (s : String) : JVal
  | arr (elems : List JVal) : JVal
  | obj (fields : List (String × JVal)) : JVal
deriving Inhabited

/-- JavaScript truthiness: `undefined`, `null`, `false`, `0`, `""` are
falsy; every object and array is truthy. -/
def JVal.truthy : JVal → Bool
  | .undef => false
  | .null => false
  | .bool b => b
  | .num q => decide (q ≠ 0)
  | .str s => decide (s ≠ "")
  | .arr _ => true
  | .obj _ => true

/-- First-match lookup in an object's field list (JS objects cannot hold
duplicate keys, so the representation is assumed key-unique). -/
def lookupField : List (String × JVal) → String → Option JVal
  | [], _ => none
  | (k, v) :: rest, key => if k = key then some v else lookupField rest key

/-- JavaScript property access `v[k]`: `undefined` on a missing key or a
non-object receiver; arrays expose their elements under numeric keys. -/
def JVal.getProp : JVal → String → JVal
  | .obj fields, k => (lookupField fields k).getD .undef
  | .arr elems, k =>
    match k.toNat? with
    | some n => elems.getD n .undef
    | none => .undef
  | _, _ => (.undef)

/-- JavaScript `Object.keys`: own enumerable keys in insertion order
(array indices for arrays, empty for primitives). -/
def JVal.keys : JVal → List String
  | .obj fields => fields.map (·.1)
  | .arr elems => (List.range elems.length).map toString
  | _ => []

/-- JavaScript strict equality `===` on the modelled values.  Objects and
arrays compare by reference; two JSON literals are distinct references,
so they are never strictly equal here. -/
def jsStrictEq : JVal → JVal → Bool
  | .undef, .undef => true
  | .null, .null => true
  | .bool a, .bool b => a == b
  | .num a, .num b => decide (a = b)
  | .str a, .str b => a == b
  | _, _ => false

/-- Whether `typeof v === 'object'` holds for a truthy `v` (a real object
or an array; `null` also has typeof `object` but every call site guards
with truthiness first). -/
def JVal.isObjLike : JVal → Bool
  | .arr _ => true
  | .obj _ => true
  | _ => false

/-- Decimal rendering of a rational.  Integers print as in JavaScript;
non-integers (never produced by the repository's integer-grained rules)
fall back to the `num/den` form. -/
def qToString (q : ℚ) : String :=
  if q.den = 1 then toString q.num else toString q.num ++ "/" ++ toString q.den

mutual

/-- JavaScript `String(v)` coercion for the used value shapes
(`Array.prototype.toString` joins elements with commas, rendering
`null`/`undefined` elements as empty). -/
def jsToString : JVal → String
  | .undef => "undefined"
  | .null => "null"
  | .bool b => if b then "true" else "false"
  | .num q => qToString q
  | .str s => s
  | .arr elems => String.intercalate "," (jsToStringList elems)
  | .obj _ => "[object Object]"

/-- Element rendering for `Array.prototype.toString`. -/
def jsToStringList : List JVal → List String
  | [] => []
  | .null :: rest => "" :: jsToStringList rest
  | .undef :: rest => "" :: jsToStringList rest
  | e :: rest => jsToString e :: jsToStringList rest
end

/-- Numeric value of a digit string (base 10). -/
def natOfDigits (cs : List Char) : ℕ :=
  cs.foldl (fun acc c => 10 * acc + (c.toNat - 48)) 0

/-- JavaScript `parseFloat` on the decimal forms used by the repository:
optional leading whitespace, optional sign, digits with an optional
fractional part; `none` models `NaN`.  (Exponent notation is not used by
the repository's payloads and is not modelled.) -/
def jsParseFloat (s : String) : Option ℚ :=
  let cs := s.data.dropWhile (fun c => c = ' ' || c = '\t' || c = '\n' || c = '\r')
  let signAndRest : ℚ × List Char :=
    match cs with
    | '-' :: r => (-1, r)
    | '+' :: r => (1, r)
    | _ => (1, cs)
  let sign := signAndRest.1
  let cs1 := signAndRest.2
  let intPart := cs1.takeWhile Char.isDigit
  let rest := cs1.dropWhile Char.isDigit
  let fracPart :=
    match rest with
    | '.' :: r => r.takeWhile Char.isDigit
    | _ => []
  if intPart.isEmpty && fracPart.isEmpty then none
  else some (sign * ((natOfDigits (intPart ++ fracPart) : ℚ) / (10 : ℚ) ^ fracPart.length))

/-- JavaScript `ToNumber` coercion as exercised by arithmetic on rule
payload fields (`amount *= multiplier`, clamp bounds, relational
comparisons).  NaN-producing coercions are not exercised by the
repository's rule catalog and are modelled as 0. -/
def toNumberArith : JVal → ℚ
  | .num q => q
  | .bool b => if b then 1 else 0
  | .null => 0
  | .str s => (jsParseFloat s).getD 0
  | _ => 0

/-- JavaScript `parseFloat(v)` on an arbitrary value: the argument is
coerced with `String(v)` first (numbers pass through exactly). -/
def jsParseFloatVal : JVal → Option ℚ
  | .num q => some q
  | v => jsParseFloat (jsToString v)

/-- JavaScript `String.prototype.includes` (substring test). -/
def strIncludes (s sub : String) : Bool :=
  s.data.tails.any (fun t => sub.data.isPrefixOf t)

/-- `Math.max` on two numbers (kernel-computable form of `max`). -/
def jsMax (a b : ℚ) : ℚ := if a ≤ b then b else a

/-- `Math.min` on two numbers (kernel-computable form of `min`). -/
def jsMin (a b : ℚ) : ℚ := if a ≤ b then a else b

/-- `jsMax` is `max`. -/
theorem jsMax_eq_max (a b : ℚ) : jsMax a b = max a b := by
  rw [jsMax, max_def]

/-- The left operand bounds `jsMax` from below. -/
theorem le_jsMax_left (a b : ℚ) : a ≤ jsMax a b := by
  rw [jsMax]
  split
  · assumption
  · exact le_rfl

/-- JavaScript `Math.round`: round half toward positive infinity,
`⌊x + 1/2⌋`. -/
def jsRound (x : ℚ) : ℤ := Int.floor (x + 1 / 2)

/-- `Math.pow(10, p)` for the integer precisions used by `round`
actions; non-integer precisions are not exercised. -/
def powTen (p : ℚ) : ℚ :=
  if p.den = 1 then (10 : ℚ) ^ p.num else 1

/-- Size bound for object-field lookup, used for termination of the
recursive JSON interpreters. -/
theorem sizeOf_lookupField {fields : List (String × JVal)} {k : String} {v : JVal}
    (h : lookupField fields k = some v) : sizeOf v < sizeOf fields := by
  induction fields with
  | nil => simp [lookupField] at h
  | cons p rest ih =>
    rw [lookupField] at h
    split at h
    · cases h
      cases p with
      | mk k' v' => simp; omega
    · have := ih h
      cases p with
      | mk k' v' => simp at this ⊢; omega

/-- Property access on an object yields a strictly smaller value. -/
theorem sizeOf_getProp_obj (fields : List (String × JVal)) (k : String) :
    sizeOf (JVal.getProp (.obj fields) k) < sizeOf (JVal.obj fields) := by
  rw [JVal.getProp]
  cases h : lookupField fields k with
  | none =>
    simp only [Option.getD]
    have : (1 : ℕ) ≤ sizeOf fields := by
      cases fields
      · simp
      · simp
        omega
    simp [JVal.undef.sizeOf_spec]
    omega
  | some v =>
    have := sizeOf_lookupField h
    simp only [Option.getD]
    simp
    omega

/-- A tax event row as read from the `tax_events` table and handed to the
engine.  `amount` is the nullable `NUMERIC(18,2)` column (the pg driver
returns it as a decimal string; `parseFloat` recovers the exact value,
modelled directly as `ℚ`).  `metadata` is the JSONB column. -/
structure TaxEvent where
  id : JVal
  event_type : JVal
  event_date : JVal
  amount : Option ℚ
  currency : JVal
  tax_year : JVal
  source_record_id : JVal
  metadata : JVal

namespace ConditionEvaluator

/-- Dotted traversal of the metadata JSON used by `getFieldValue`: at
each step the current value must be a truthy object, otherwise the
lookup aborts with `null`; traversing past a present object can end on
`undefined` when the final key is missing. -/
def metaWalk : JVal → List String → JVal
  | v, [] => v
  | v, p :: ps =>
    if v.truthy && v.isObjLike then metaWalk (v.getProp p) ps else .null

/-- `conditionEvaluator.getFieldValue`: resolve an `event.*` field path
against an event.  Unknown fields and malformed paths yield `null`. -/
def getFieldValue (fieldPath : JVal) (event : TaxEvent) : JVal :=
  match fieldPath with
  | .str s =>
    let parts := s.splitOn "."
    match parts with
    | ["event", f] =>
      if f = "event_type" || f = "eventType" then event.event_type
      else if f = "amount" then
        match event.amount with
        | some q => .num q
        | none => .null
      else if f = "currency" then event.currency
      else if f = "event_date" || f = "eventDate" then event.event_date
      else if f = "tax_year" || f = "taxYear" then event.tax_year
      else if f = "id" then event.id
      else if f = "source_record_id" then event.source_record_id
      else .null
    | "event" :: "metadata" :: rest =>
      if rest.length ≥ 1 then
        if event.metadata.truthy = false then .null
        else metaWalk event.metadata rest
      else .null
    | _ => .null
  | _ => .null

/-- `conditionEvaluator.toNumber`: numbers pass through, strings go
through `parseFloat` with NaN collapsed to 0, everything else is 0. -/
def toNumber : JVal → ℚ
  | .num q => q
  | .str s => (jsParseFloat s).getD 0
  | _ => 0

/-- `conditionEvaluator.evaluateSingle`: evaluate one
`{ field, op, value }` condition against an event.  An unknown operator
returns `false`. -/
def evaluateSingle (condition : JVal) (event : TaxEvent) : Bool :=
  let field := condition.getProp "field"
  let op := condition.getProp "op"
  let value := condition.getProp "value"
  let fieldValue := getFieldValue field event
  match op with
  | .str "=" => jsStrictEq fieldValue value
  | .str "eq" => jsStrictEq fieldValue value
  | .str "!=" => !jsStrictEq fieldValue value
  | .str "neq" => !jsStrictEq fieldValue value
  | .str "in" =>
    match value with
    | .arr l => l.any (fun x => jsStrictEq x fieldValue)
    | _ => false
  | .str "not_in" =>
    match value with
    | .arr l => !(l.any (fun x => jsStrictEq x fieldValue))
    | _ => false
  | .str ">" => decide (toNumber fieldValue > toNumber value)
  | .str "gt" => decide (toNumber fieldValue > toNumber value)
  | .str ">=" => decide (toNumber fieldValue ≥ toNumber value)
  | .str "gte" => decide (toNumber fieldValue ≥ toNumber value)
  | .str "<" => decide (toNumber fieldValue < toNumber value)
  | .str "lt" => decide (toNumber fieldValue < toNumber value)
  | .str "<=" => decide (toNumber fieldValue ≤ toNumber value)
  | .str "lte" => decide (toNumber fieldValue ≤ toNumber value)
  | .str "exists" =>
    match fieldValue with
    | .null => false
    | .undef => false
    | _ => true
  | .str "not_exists" =>
    match fieldValue with
    | .null => true
    | .undef => true
    | _ => false
  | .str "contains" =>
    match fieldValue with
    | .str s => strIncludes s (jsToString value)
    | _ => false
  | .str "starts_with" =>
    match fieldValue with
    | .str s => s.startsWith (jsToString value)
    | _ => false
  | .str "ends_with" =>
    match fieldValue with
    | .str s => s.endsWith (jsToString value)
    | _ => false
  | _ => false

/-- `conditionEvaluator.evaluate`: evaluates a rule's `conditions` JSON
against an event.  Falsy conditions match everything; `always: true`
matches; `all`/`any` fold sub-conditions; `{field, op, value}` and the
compact single-key form delegate to `evaluateSingle`; every other shape
falls through to `true`. -/
def evaluate (conditions : JVal) (event : TaxEvent) : Bool :=
  if conditions.truthy = false then true
  else if jsStrictEq (conditions.getProp "always") (.bool true) then true
  else
    match conditions.getProp "all" with
    | .arr l => l.all (fun c => evaluateSingle c event)
    | _ =>
      match conditions.getProp "any" with
      | .arr l => l.any (fun c => evaluateSingle c event)
      | _ =>
        if (conditions.getProp "field").truthy && (conditions.getProp "op").truthy then
          evaluateSingle conditions event
        else
          match conditions.keys with
          | [field] =>
            let opValue := conditions.getProp field
            if opValue.truthy && opValue.isObjLike then
              match opValue.keys with
              | [op] =>
                let value := opValue.getProp op
                let fullField :=
                  if field.startsWith "event." then field else "event." ++ field
                evaluateSingle
                  (.obj [("field", .str fullField), ("op", .str op), ("value", value)])
                  event
              | _ => true
            else true
          | _ => true

end ConditionEvaluator

/-- The engine's `fieldValues` JavaScript `Map`, modelled as an
insertion-ordered association list with string keys (the rule catalog's
`logical_field` codes). -/
abbrev FieldMap := List (String × ℚ)

/-- `Map.prototype.get` (as `Option`). -/
def mapGet : FieldMap → String → Option ℚ
  | [], _ => none
  | (k, v) :: rest, key => if k = key then some v else mapGet rest key

/-- `Map.prototype.has`. -/
def mapHas (fv : FieldMap) (key : String) : Bool := (mapGet fv key).isSome

/-- `Map.prototype.set`: update an existing key in place (keeping its
position), otherwise append. -/
def mapSet : FieldMap → String → ℚ → FieldMap
  | [], key, v => [(key, v)]
  | (k, w) :: rest, key, v =>
    if k = key then (k, v) :: rest else (k, w) :: mapSet rest key v

/-- The ubiquitous `fieldValues.get(code) || 0` read: a missing field and
a zero field both read as 0. -/
def getOr0 (fv : FieldMap) (key : String) : ℚ := (mapGet fv key).getD 0

/-- Left fold of `+` from 0, the value of `refs.reduce((sum, ref) => sum
+ val, 0)`. -/
def sumList (l : List ℚ) : ℚ := l.foldl (· + ·) 0

/-- `Math.max(...values, acc)` as a fold. -/
def maxList (l : List ℚ) (acc : ℚ) : ℚ := l.foldl jsMax acc

/-- `Math.min(...values)` over a nonempty list, folding from its head. -/
def minList (l : List ℚ) (acc : ℚ) : ℚ := l.foldl jsMin acc

namespace FormulaEvaluator

/-- `formulaEvaluator.getFieldValue`: present fields read from the map,
missing fields (and non-string codes, on which `Map.has` is false) read
as 0. -/
def getFieldValue (fieldCode : JVal) (fieldValues : FieldMap) : ℚ :=
  match fieldCode with
  | .str s => (mapGet fieldValues s).getD 0
  | _ => 0

mutual

/-- `formulaEvaluator.evaluate`: a formula is a numeric literal, a
`{ref}` field lookup, or an `{op, …}` operation; every falsy or
unrecognized formula evaluates to 0.  On a truthy non-object formula
both `formula.ref` and `formula.op` are `undefined` (falsy), so the JS
falls through to `return 0`; that collapse is the final branch here. -/
def evaluate (formula : JVal) (fieldValues : FieldMap) : ℚ :=
  if formula.truthy = false then 0
  else
    match formula with
    | .num q => q
    | .obj fields =>
      if ((JVal.obj fields).getProp "ref").truthy then
        getFieldValue ((JVal.obj fields).getProp "ref") fieldValues
      else if ((JVal.obj fields).getProp "op").truthy then
        evaluateOperation (.obj fields) fieldValues
      else 0
    | _ => 0
termination_by 3 * sizeOf formula + 1
decreasing_by
all_goals simp_wf
all_goals omega

/-- `formulaEvaluator.evaluateOperation`: dispatch on the `op` string of
an operation node (the JS `switch` compares with `===`, hence the
`jsStrictEq` chain).  A non-object node carries no `op` and hits the
`default` branch (0), exactly as the JS `switch` on `undefined` does. -/
def evaluateOperation (formula : JVal) (fieldValues : FieldMap) : ℚ :=
  match formula with
  | .obj fields =>
    let f := JVal.obj fields
    let op := f.getProp "op"
    if jsStrictEq op (.str "sum") then
      match h : f.getProp "refs" with
      | .arr l => sumList (mapRefValues l fieldValues)
      | _ => evaluate (f.getProp "a") fieldValues + evaluate (f.getProp "b") fieldValues
    else if jsStrictEq op (.str "sub") then
      evaluate (f.getProp "a") fieldValues - evaluate (f.getProp "b") fieldValues
    else if jsStrictEq op (.str "mul") then
      evaluate (f.getProp "a") fieldValues * evaluate (f.getProp "b") fieldValues
    else if jsStrictEq op (.str "div") then
      let aVal := evaluate (f.getProp "a") fieldValues
      let bVal := evaluate (f.getProp "b") fieldValues
      if bVal = 0 then 0 else aVal / bVal
    else if jsStrictEq op (.str "max") then
      match h : f.getProp "refs" with
      | .arr l => maxList (mapRefValues l fieldValues) 0
      | _ => jsMax (evaluate (f.getProp "a") fieldValues) (evaluate (f.getProp "b") fieldValues)
    else if jsStrictEq op (.str "min") then
      match h : f.getProp "refs" with
      | .arr l =>
        match mapRefValues l fieldValues with
        | [] => 0
        | v :: vs => minList vs v
      | _ => jsMin (evaluate (f.getProp "a") fieldValues) (evaluate (f.getProp "b") fieldValues)
    else if jsStrictEq op (.str "round") then
      let val := evaluate (f.getProp "a") fieldValues
      let precision :=
        match f.getProp "b" with
        | .undef => 0
        | _ => evaluate (f.getProp "b") fieldValues
      let multiplier := powTen precision
      ((jsRound (val * multiplier) : ℚ)) / multiplier
    else if jsStrictEq op (.str "floor") then
      (Int.floor (evaluate (f.getProp "a") fieldValues) : ℚ)
    else if jsStrictEq op (.str "ceil") then
      (Int.ceil (evaluate (f.getProp "a") fieldValues) : ℚ)
    else if jsStrictEq op (.str "abs") then
      |evaluate (f.getProp "a") fieldValues|
    else if jsStrictEq op (.str "percent") then
      evaluate (f.getProp "a") fieldValues * evaluate (f.getProp "b") fieldValues / 100
    else if jsStrictEq op (.str "if") then
      let condValue := evaluate (f.getProp "condition") fieldValues
      if condValue > 0 then evaluate (f.getProp "then") fieldValues
      else
        if (f.getProp "else").truthy then evaluate (f.getProp "else") fieldValues else 0
    else if jsStrictEq op (.str "gt") then
      if evaluate (f.getProp "a") fieldValues > evaluate (f.getProp "b") fieldValues then 1 else 0
    else if jsStrictEq op (.str "gte") then
      if evaluate (f.getProp "a") fieldValues ≥ evaluate (f.getProp "b") fieldValues then 1 else 0
    else if jsStrictEq op (.str "lt") then
      if evaluate (f.getProp "a") fieldValues < evaluate (f.getProp "b") fieldValues then 1 else 0
    else if jsStrictEq op (.str "lte") then
      if evaluate (f.getProp "a") fieldValues ≤ evaluate (f.getProp "b") fieldValues then 1 else 0
    else if jsStrictEq op (.str "eq") then
      if evaluate (f.getProp "a") fieldValues = evaluate (f.getProp "b") fieldValues then 1 else 0
    else 0
  | _ => 0
termination_by 3 * sizeOf formula
decreasing_by
all_goals simp_wf
all_goals first
  | omega
  | (have hsz := sizeOf_getProp_obj fields "a"; simp at hsz; omega)
  | (have hsz := sizeOf_getProp_obj fields "b"; simp at hsz; omega)
  | (have hsz := sizeOf_getProp_obj fields "condition"; simp at hsz; omega)
  | (have hsz := sizeOf_getProp_obj fields "then"; simp at hsz; omega)
  | (have hsz := sizeOf_getProp_obj fields "else"; simp at hsz; omega)
  | (have h2 := sizeOf_getProp_obj fields "refs"; rw [h] at h2; simp at h2; omega)

/-- One operand of an n-ary `refs` list:
`typeof ref === 'string' ? getFieldValue(ref) : evaluate(ref)` (the
non-string constructors are spelled out for structural recursion). -/
def refValue (ref : JVal) (fieldValues : FieldMap) : ℚ :=
  match ref with
  | .str s => getFieldValue (.str s) fieldValues
  | .undef => evaluate .undef fieldValues
  | .null => evaluate .null fieldValues
  | .bool b => evaluate (.bool b) fieldValues
  | .num q => evaluate (.num q) fieldValues
  | .arr l => evaluate (.arr l) fieldValues
  | .obj fs => evaluate (.obj fs) fieldValues
termination_by 3 * sizeOf ref + 2
decreasing_by
all_goals simp_wf
all_goals omega

/-- Resolve every operand of a `refs` list. -/
def mapRefValues (refs : List JVal) (fieldValues : FieldMap) : List ℚ :=
  match refs with
  | [] => []
  | r :: rest => refValue r fieldValues :: mapRefValues rest fieldValues
termination_by 3 * sizeOf refs
decreasing_by
all_goals simp_wf
all_goals omega

end

end FormulaEvaluator

/-- A rule row (`tax_rules`): `conditions` and `actions` are JSONB
payloads; `rule_type` is the discriminating text column.  The engine
receives rules already ordered by (priority asc, created_at asc). -/
structure Rule where
  id : JVal
  rule_type : String
  conditions : JVal
  actions : JVal

/-- Engine counters (`context.stats`). -/
structure Stats where
  eventsProcessed : ℕ
  eventsExcluded : ℕ
  mappingsCreated : ℕ
  rulesMatched : ℕ
deriving DecidableEq

/-- A `tax_mappings` row produced by a `map` action. -/
structure MappingRec where
  taxEventId : JVal
  taxYear : JVal
  logicalField : JVal
  amount : ℚ
  ruleId : JVal

/-- A record of a fired `calc` action. -/
structure CalcRec where
  logicalField : JVal
  value : ℚ
  ruleId : JVal

/-- Audit entry for a fired `flag` action. -/
structure FlagActionRec where
  ruleId : JVal
  flags : List (String × JVal)

/-- A non-fatal per-rule error recorded during the mapping phase. -/
structure ErrorRec where
  ruleId : JVal
  eventId : JVal
  error : String

/-- The engine context accumulated across the seven phases.  `flags` is
a JS object (insertion-ordered), `excludedEventIds` a JS `Set`
(insertion-ordered, deduplicated under `===`). -/
structure EngineContext where
  fieldValues : FieldMap
  mappings : List MappingRec
  calculations : List CalcRec
  flags : List (String × JVal)
  flagActions : List FlagActionRec
  excludedEventIds : List JVal
  errors : List ErrorRec
  stats : Stats

/-- The freshly initialized context at the top of `runEngine.run`. -/
def initialContext : EngineContext :=
  { fieldValues := []
    mappings := []
    calculations := []
    flags := []
    flagActions := []
    excludedEventIds := []
    errors := []
    stats := ⟨0, 0, 0, 0⟩ }

/-- `Set.prototype.has` under `===`. -/
def jsSetHas (s : List JVal) (v : JVal) : Bool := s.any (fun x => jsStrictEq x v)

/-- `Set.prototype.add`: append if not already present. -/
def jsSetAdd (s : List JVal) (v : JVal) : List JVal :=
  if jsSetHas s v then s else s ++ [v]

/-- JS object property assignment `o[k] = v`: update an existing key in
place, otherwise append. -/
def objAssign : List (String × JVal) → String → JVal → List (String × JVal)
  | [], key, v => [(key, v)]
  | (k, w) :: rest, key, v =>
    if k = key then (k, v) :: rest else (k, w) :: objAssign rest key v

/-- `Object.entries` of the value shapes a `flag` action's `set` can
take (an object, or — `typeof` also being `'object'` — an array with its
index keys). -/
def objEntries : JVal → List (String × JVal)
  | .obj fields => fields
  | .arr elems => (elems.enum.map fun (i, e) => (toString i, e))
  | _ => []

namespace MappingHandler

/-- `mappingHandler.extractAmount`: resolve a `map` action's amount from
the action's own numeric `amount`, the event amount, a metadata field,
or a fixed value.  (A truthy non-string `amount_source` would crash the
rule inside the phase's try/catch; the repository's catalog only stores
strings, and that branch is modelled as the final 0 fallback.) -/
def extractAmount (action : JVal) (event : TaxEvent) : ℚ :=
  let source :=
    if (action.getProp "amount_source").truthy then action.getProp "amount_source"
    else .str "event.amount"
  match action.getProp "amount" with
  | .num q => q
  | _ =>
    match source with
    | .str s =>
      if s = "event.amount" then
        match event.amount with
        | some q => q
        | none => 0
      else if s.startsWith "event.metadata." then
        let key := s.drop ("event.metadata.".length)
        if event.metadata.truthy then
          match event.metadata.getProp key with
          | .undef => 0
          | v => (jsParseFloatVal v).getD 0
        else 0
      else if s = "fixed" then
        match action.getProp "amount" with
        | .undef => 0
        | v => (jsParseFloatVal v).getD 0
      else 0
    | _ => 0

/-- `mappingHandler.handle`: compute the amount, apply `multiplier` and
`round`, **add** into `fieldValues[logical_field]` and record the
mapping tuple.  A missing `logical_field` throws (returned as the error
string caught by the mapping phase). -/
def handle (action : JVal) (event : TaxEvent) (rule : Rule) (ctx : EngineContext) :
    EngineContext × Option String :=
  if jsStrictEq (action.getProp "type") (.str "map") = false then (ctx, none)
  else
    let logicalField := action.getProp "logical_field"
    if logicalField.truthy = false then
      (ctx, some ("Mapping action missing logical_field in rule " ++ jsToString rule.id))
    else
      let amount0 := extractAmount action event
      let amount1 :=
        match action.getProp "multiplier" with
        | .undef => amount0
        | m => amount0 * toNumberArith m
      let amount :=
        match action.getProp "round" with
        | .undef => amount1
        | r =>
          let multiplier := powTen (toNumberArith r)
          (jsRound (amount1 * multiplier) : ℚ) / multiplier
      let mapping : MappingRec :=
        { taxEventId := event.id
          taxYear := event.tax_year
          logicalField := logicalField
          amount := amount
          ruleId := rule.id }
      let key :=
        match logicalField with
        | .str s => s
        | v => jsToString v
      let currentValue := getOr0 ctx.fieldValues key
      ({ ctx with
          fieldValues := mapSet ctx.fieldValues key (currentValue + amount)
          mappings := ctx.mappings ++ [mapping] }, none)

end MappingHandler

namespace FlagHandler

/-- `flagHandler.handle`: merge a `flag` action's `set` object into the
context flags and record the audit entry; a falsy or non-object `set`
throws. -/
def handle (action : JVal) (rule : Rule) (ctx : EngineContext) :
    EngineContext × Option String :=
  if jsStrictEq (action.getProp "type") (.str "flag") = false then (ctx, none)
  else
    let flagsToSet := action.getProp "set"
    if (flagsToSet.truthy && flagsToSet.isObjLike) = false then
      (ctx, some ("Flag action missing 'set' object in rule " ++ jsToString rule.id))
    else
      let entries := objEntries flagsToSet
      ({ ctx with
          flags := entries.foldl (fun fl (kv : String × JVal) => objAssign fl kv.1 kv.2) ctx.flags
          flagActions := ctx.flagActions ++ [{ ruleId := rule.id, flags := entries }] }, none)

end FlagHandler

namespace CalculationHandler

/-- `calculationHandler.handle`: evaluate a `calc` action's formula
against the current field values, apply `round` and `{min, max}`
clamping, **overwrite** the target field and record the calculation.
Missing `target`/`formula` throw (errors propagate out of phase 4). -/
def handle (action : JVal) (rule : Rule) (ctx : EngineContext) :
    EngineContext × Option String :=
  if jsStrictEq (action.getProp "type") (.str "calc") = false then (ctx, none)
  else
    let target := action.getProp "target"
    if target.truthy = false then
      (ctx, some ("Calculation action missing target in rule " ++ jsToString rule.id))
    else
      let formula := action.getProp "formula"
      if formula.truthy = false then
        (ctx, some ("Calculation action missing formula in rule " ++ jsToString rule.id))
      else
        let result0 := FormulaEvaluator.evaluate formula ctx.fieldValues
        let result1 :=
          match action.getProp "round" with
          | .undef => result0
          | r =>
            let multiplier := powTen (toNumberArith r)
            (jsRound (result0 * multiplier) : ℚ) / multiplier
        let result2 :=
          match action.getProp "min" with
          | .undef => result1
          | m => if result1 < toNumberArith m then toNumberArith m else result1
        let result :=
          match action.getProp "max" with
          | .undef => result2
          | m => if result2 > toNumberArith m then toNumberArith m else result2
        let key :=
          match target with
          | .str s => s
          | v => jsToString v
        ({ ctx with
            fieldValues := mapSet ctx.fieldValues key result
            calculations := ctx.calculations ++
              [{ logicalField := target, value := result, ruleId := rule.id }] }, none)

/-- Action loop of `calculationHandler.processAll` for one rule: only
`calc` actions are handled; a throw aborts the remaining actions. -/
def processActions (actions : List JVal) (rule : Rule) (ctx : EngineContext) :
    EngineContext × Option String :=
  match actions with
  | [] => (ctx, none)
  | action :: rest =>
    if jsStrictEq (action.getProp "type") (.str "calc") then
      match handle action rule ctx with
      | (ctx', none) => processActions rest rule ctx'
      | (ctx', some e) => (ctx', some e)
    else processActions rest rule ctx

/-- `calculationHandler.processAll`: run the calculation rules in order;
rules with falsy `actions` are skipped; a single action object is
wrapped in a list.  Throws are uncaught here and abort the engine run. -/
def processAll (rules : List Rule) (ctx : EngineContext) :
    EngineContext × Option String :=
  match rules with
  | [] => (ctx, none)
  | rule :: rest =>
    if rule.actions.truthy = false then processAll rest ctx
    else
      let actionList :=
        match rule.actions with
        | .arr l => l
        | a => [a]
      match processActions actionList rule ctx with
      | (ctx', none) => processAll rest ctx'
      | (ctx', some e) => (ctx', some e)

end CalculationHandler

namespace FlagHandler

/-- `flagHandler.evaluateSingleFlagCondition`: a flag-rule condition
read against the accumulated `fieldValues` (not against an event).
`field.X`/`LF_X` references resolve with a 0 default; any other field
shape passes.  Unknown operators pass. -/
def evaluateSingleFlagCondition (condition : JVal) (ctx : EngineContext) : Bool :=
  let field := condition.getProp "field"
  let op := condition.getProp "op"
  let value := condition.getProp "value"
  let resolved : Option ℚ :=
    match field with
    | .str s =>
      if s.startsWith "field." then some (getOr0 ctx.fieldValues (s.drop "field.".length))
      else if s.startsWith "LF_" then some (getOr0 ctx.fieldValues s)
      else none
    | _ => none
  match resolved with
  | none => true
  | some fieldValue =>
    match op with
    | .str ">" => decide (fieldValue > toNumberArith value)
    | .str "gt" => decide (fieldValue > toNumberArith value)
    | .str ">=" => decide (fieldValue ≥ toNumberArith value)
    | .str "gte" => decide (fieldValue ≥ toNumberArith value)
    | .str "<" => decide (fieldValue < toNumberArith value)
    | .str "lt" => decide (fieldValue < toNumberArith value)
    | .str "<=" => decide (fieldValue ≤ toNumberArith value)
    | .str "lte" => decide (fieldValue ≤ toNumberArith value)
    | .str "=" => jsStrictEq (.num fieldValue) value
    | .str "eq" => jsStrictEq (.num fieldValue) value
    | .str "!=" => !jsStrictEq (.num fieldValue) value
    | .str "neq" => !jsStrictEq (.num fieldValue) value
    | .str "exists" => decide (fieldValue > 0)
    | _ => true

/-- `flagHandler.evaluateFlagConditions`: falsy conditions pass;
`all`/`any` fold over sub-conditions; anything else is a single
condition. -/
def evaluateFlagConditions (conditions : JVal) (ctx : EngineContext) : Bool :=
  if conditions.truthy = false then true
  else
    match conditions.getProp "all" with
    | .arr l => l.all (fun c => evaluateSingleFlagCondition c ctx)
    | _ =>
      match conditions.getProp "any" with
      | .arr l => l.any (fun c => evaluateSingleFlagCondition c ctx)
      | _ => evaluateSingleFlagCondition conditions ctx

/-- Action loop of `processConditionalFlags` for one matched rule. -/
def processFlagActions (actions : List JVal) (rule : Rule) (ctx : EngineContext) :
    EngineContext × Option String :=
  match actions with
  | [] => (ctx, none)
  | action :: rest =>
    if jsStrictEq (action.getProp "type") (.str "flag") then
      match handle action rule ctx with
      | (ctx', none) => processFlagActions rest rule ctx'
      | (ctx', some e) => (ctx', some e)
    else processFlagActions rest rule ctx

/-- `flagHandler.processConditionalFlags` (phase 6): apply every `flag`
rule whose conditions match the accumulated field values.  Throws are
uncaught here and abort the engine run. -/
def processConditionalFlags (rules : List Rule) (ctx : EngineContext) :
    EngineContext × Option String :=
  match rules with
  | [] => (ctx, none)
  | rule :: rest =>
    if evaluateFlagConditions rule.conditions ctx = false then
      processConditionalFlags rest ctx
    else if rule.actions.truthy = false then processConditionalFlags rest ctx
    else
      let actionList :=
        match rule.actions with
        | .arr l => l
        | a => [a]
      match processFlagActions actionList rule ctx with
      | (ctx', none) => processConditionalFlags rest ctx'
      | (ctx', some e) => (ctx', some e)

end FlagHandler

namespace RunEngine

/-- Stats helpers mirroring the `++` counter updates. -/
def bumpEventsProcessed (ctx : EngineContext) : EngineContext :=
  { ctx with stats := { ctx.stats with eventsProcessed := ctx.stats.eventsProcessed + 1 } }

def bumpRulesMatched (ctx : EngineContext) : EngineContext :=
  { ctx with stats := { ctx.stats with rulesMatched := ctx.stats.rulesMatched + 1 } }

def bumpMappingsCreated (ctx : EngineContext) : EngineContext :=
  { ctx with stats := { ctx.stats with mappingsCreated := ctx.stats.mappingsCreated + 1 } }

/-- Phase 1, `runEngine.applyExclusions`: for each event, scan the
exclusion rules in order; the first match adds the event id to the
excluded set and `break`s out of the rule loop (hence `find?`). -/
def applyExclusions (events : List TaxEvent) (rules : List Rule) (ctx : EngineContext) :
    EngineContext :=
  match events with
  | [] => ctx
  | event :: rest =>
    let ctx' :=
      match rules.find? (fun rule => ConditionEvaluator.evaluate rule.conditions event) with
      | some _ =>
        { ctx with
            excludedEventIds := jsSetAdd ctx.excludedEventIds event.id
            stats := { ctx.stats with eventsExcluded := ctx.stats.eventsExcluded + 1 } }
      | none => ctx
    applyExclusions rest rules ctx'

/-- Action loop of `applyMappings` for one matched rule: `map` actions
go through the mapping handler (bumping `mappingsCreated` on success),
inline `flag` actions through the flag handler; the first throw aborts
the remaining actions of this rule, keeping earlier mutations. -/
def processActionList (actions : List JVal) (event : TaxEvent) (rule : Rule)
    (ctx : EngineContext) : EngineContext × Option String :=
  match actions with
  | [] => (ctx, none)
  | action :: rest =>
    let step1 : EngineContext × Option String :=
      if jsStrictEq (action.getProp "type") (.str "map") then
        match MappingHandler.handle action event rule ctx with
        | (ctx', none) => (bumpMappingsCreated ctx', none)
        | (ctx', some e) => (ctx', some e)
      else (ctx, none)
    match step1 with
    | (ctx1, some e) => (ctx1, some e)
    | (ctx1, none) =>
      let step2 : EngineContext × Option String :=
        if jsStrictEq (action.getProp "type") (.str "flag") then
          FlagHandler.handle action rule ctx1
        else (ctx1, none)
      match step2 with
      | (ctx2, some e) => (ctx2, some e)
      | (ctx2, none) => processActionList rest event rule ctx2

/-- Rule loop of `applyMappings` for one event: each matching rule runs
all its actions inside a try/catch; a throw is recorded in `errors` and
processing continues with the next rule. -/
def processEventRules (rules : List Rule) (event : TaxEvent) (ctx : EngineContext) :
    EngineContext :=
  match rules with
  | [] => ctx
  | rule :: rest =>
    let ctx' :=
      if ConditionEvaluator.evaluate rule.conditions event then
        let ctx1 := bumpRulesMatched ctx
        if rule.actions.truthy = false then ctx1
        else
          let actionList :=
            match rule.actions with
            | .arr l => l
            | a => [a]
          match processActionList actionList event rule ctx1 with
          | (ctx2, none) => ctx2
          | (ctx2, some msg) =>
            { ctx2 with errors := ctx2.errors ++
                [{ ruleId := rule.id, eventId := event.id, error := msg }] }
      else ctx
    processEventRules rest event ctx'

/-- Phase 2, `runEngine.applyMappings`: events whose id is in the
excluded set are skipped outright; the rest are counted and run through
the mapping rules. -/
def applyMappings (events : List TaxEvent) (rules : List Rule) (ctx : EngineContext) :
    EngineContext :=
  match events with
  | [] => ctx
  | event :: rest =>
    let ctx' :=
      if jsSetHas ctx.excludedEventIds event.id then ctx
      else processEventRules rules event (bumpEventsProcessed ctx)
    applyMappings rest rules ctx'

/-- Constituents of `LF_INCOME_FOREIGN_TOTAL` (phase 3). -/
def foreignIncomes : List String :=
  [ "LF_INCOME_FOREIGN_EMPLOYMENT"
  , "LF_INCOME_FOREIGN_GPC"
  , "LF_INCOME_FOREIGN_WIN"
  , "LF_INCOME_FOREIGN_DIVIDENDS"
  , "LF_INCOME_FOREIGN_INTEREST"
  , "LF_INCOME_FOREIGN_SCHOLARSHIP"
  , "LF_INCOME_FOREIGN_INSURANCE"
  , "LF_INCOME_FOREIGN_PENSION"
  , "LF_INCOME_FOREIGN_OTHER" ]

/-- Constituents of `LF_INCOME_TOTAL` (phase 3). -/
def incomeCategories : List String :=
  [ "LF_INCOME_PROPERTY_TOTAL"
  , "LF_INCOME_RENT_NON_AGENT"
  , "LF_INCOME_ASSIGNMENT_RIGHTS"
  , "LF_INCOME_IP_OTHER_ASSETS"
  , "LF_INCOME_FOREIGN_TOTAL"
  , "LF_INCOME_DOMESTIC_HELPERS"
  , "LF_INCOME_CITIZENS_GPC"
  , "LF_INCOME_MEDIATOR"
  , "LF_INCOME_SUBSIDIARY_FARM"
  , "LF_INCOME_LABOR_MIGRANT"
  , "LF_INCOME_OTHER_NON_AGENT"
  , "LF_INCOME_CFC_PROFIT" ]

/-- Phase 3, `runEngine.autoCalculateBaseTotals`: compute each of the
five subtotal fields from its constituents when the subtotal is not
already present and the computed sum is positive. -/
def autoCalculateBaseTotals (ctx : EngineContext) : EngineContext :=
  let fv0 := ctx.fieldValues
  let fv1 :=
    if mapHas fv0 "LF_INCOME_PROPERTY_TOTAL" = false then
      let propertyTotal :=
        getOr0 fv0 "LF_INCOME_PROPERTY_KZ" +
        getOr0 fv0 "LF_INCOME_PROPERTY_FOREIGN" +
        getOr0 fv0 "LF_INCOME_PROPERTY_CAPITAL_CONTRIBUTION"
      if propertyTotal > 0 then mapSet fv0 "LF_INCOME_PROPERTY_TOTAL" propertyTotal else fv0
    else fv0
  let fv2 :=
    if mapHas fv1 "LF_INCOME_FOREIGN_TOTAL" = false then
      let foreignTotal := foreignIncomes.foldl (fun sum code => sum + getOr0 fv1 code) 0
      if foreignTotal > 0 then mapSet fv1 "LF_INCOME_FOREIGN_TOTAL" foreignTotal else fv1
    else fv1
  let fv3 :=
    if mapHas fv2 "LF_DEDUCTION_TOTAL" = false then
      let deductionTotal :=
        getOr0 fv2 "LF_DEDUCTION_STANDARD" + getOr0 fv2 "LF_DEDUCTION_OTHER"
      if deductionTotal > 0 then mapSet fv2 "LF_DEDUCTION_TOTAL" deductionTotal else fv2
    else fv2
  let fv4 :=
    if mapHas fv3 "LF_ADJUSTMENT_TOTAL" = false then
      let adjustmentTotal :=
        getOr0 fv3 "LF_ADJUSTMENT_EXCLUDED_ART_341" +
        getOr0 fv3 "LF_ADJUSTMENT_EXCLUDED_ART_654" +
        getOr0 fv3 "LF_ADJUSTMENT_EXCLUDED_TREATY" +
        getOr0 fv3 "LF_ADJUSTMENT_EXCLUDED_AIFC"
      if adjustmentTotal > 0 then mapSet fv3 "LF_ADJUSTMENT_TOTAL" adjustmentTotal else fv3
    else fv3
  let fv5 :=
    if mapHas fv4 "LF_INCOME_TOTAL" = false then
      let incomeTotal := incomeCategories.foldl (fun sum code => sum + getOr0 fv4 code) 0
      if incomeTotal > 0 then mapSet fv4 "LF_INCOME_TOTAL" incomeTotal else fv4
    else fv4
  { ctx with fieldValues := fv5 }

/-- One phase-3 subtotal update, the shared shape of the five stages of
`autoCalculateBaseTotals`: set `key` to `s` when the key is absent and
`s` is positive, otherwise leave the map unchanged. -/
def subtotalStep (fv : FieldMap) (key : String) (s : ℚ) : FieldMap :=
  if mapHas fv key = false then (if s > 0 then mapSet fv key s else fv) else fv

/-- The `propertyTotal` sum of phase 3. -/
def propertyTotal (fv : FieldMap) : ℚ :=
  getOr0 fv "LF_INCOME_PROPERTY_KZ" +
  getOr0 fv "LF_INCOME_PROPERTY_FOREIGN" +
  getOr0 fv "LF_INCOME_PROPERTY_CAPITAL_CONTRIBUTION"

/-- The `foreignTotal` sum of phase 3. -/
def foreignTotal (fv : FieldMap) : ℚ :=
  foreignIncomes.foldl (fun sum code => sum + getOr0 fv code) 0

/-- The `deductionTotal` sum of phase 3. -/
def deductionTotal (fv : FieldMap) : ℚ :=
  getOr0 fv "LF_DEDUCTION_STANDARD" + getOr0 fv "LF_DEDUCTION_OTHER"

/-- The `adjustmentTotal` sum of phase 3. -/
def adjustmentTotal (fv : FieldMap) : ℚ :=
  getOr0 fv "LF_ADJUSTMENT_EXCLUDED_ART_341" +
  getOr0 fv "LF_ADJUSTMENT_EXCLUDED_ART_654" +
  getOr0 fv "LF_ADJUSTMENT_EXCLUDED_TREATY" +
  getOr0 fv "LF_ADJUSTMENT_EXCLUDED_AIFC"

/-- The `incomeTotal` sum of phase 3. -/
def incomeTotal (fv : FieldMap) : ℚ :=
  incomeCategories.foldl (fun sum code => sum + getOr0 fv code) 0

/-- Stage 1 of phase 3 (property subtotal). -/
def bt1 (fv : FieldMap) : FieldMap :=
  subtotalStep fv "LF_INCOME_PROPERTY_TOTAL" ( propertyTotal fv)

/-- Stage 2 of phase 3 (foreign subtotal). -/
def bt2 (fv : FieldMap) : FieldMap :=
  subtotalStep fv "LF_INCOME_FOREIGN_TOTAL" (foreignTotal fv)

/-- Stage 3 of phase 3 (deduction subtotal). -/
def bt3 (fv : FieldMap) : FieldMap :=
  subtotalStep fv "LF_DEDUCTION_TOTAL" (deductionTotal fv)

/-- Stage 4 of phase 3 (adjustment subtotal). -/
def bt4 (fv : FieldMap) : FieldMap :=
  subtotalStep fv "LF_ADJUSTMENT_TOTAL" (adjustmentTotal fv)

/-- Stage 5 of phase 3 (income subtotal). -/
def bt5 (fv : FieldMap) : FieldMap :=
  subtotalStep fv "LF_INCOME_TOTAL" (incomeTotal fv)


/-- Phase 5, `runEngine.autoCalculateDerivedFields`: taxable income,
calculated IPN (10 %, rounded to the nearest integer) and payable IPN,
each computed when the field is missing or zero. -/
def autoCalculateDerivedFields (ctx : EngineContext) : EngineContext :=
  let fv0 := ctx.fieldValues
  let fv1 :=
    if mapHas fv0 "LF_TAXABLE_INCOME" = false || mapGet fv0 "LF_TAXABLE_INCOME" = some 0 then
      let taxableIncome :=
        getOr0 fv0 "LF_INCOME_TOTAL" -
        getOr0 fv0 "LF_ADJUSTMENT_TOTAL" -
        getOr0 fv0 "LF_DEDUCTION_TOTAL"
      mapSet fv0 "LF_TAXABLE_INCOME" (jsMax 0 taxableIncome)
    else fv0
  let fv2 :=
    if mapHas fv1 "LF_IPN_CALCULATED" = false || mapGet fv1 "LF_IPN_CALCULATED" = some 0 then
      let taxableIncome := getOr0 fv1 "LF_TAXABLE_INCOME"
      mapSet fv1 "LF_IPN_CALCULATED" ((jsRound (taxableIncome * (1 / 10)) : ℚ))
    else fv1
  let fv3 :=
    if mapHas fv2 "LF_IPN_PAYABLE" = false || mapGet fv2 "LF_IPN_PAYABLE" = some 0 then
      let ipnCalculated := getOr0 fv2 "LF_IPN_CALCULATED"
      let foreignCredit :=
        getOr0 fv2 "LF_FOREIGN_TAX_CREDIT_GENERAL" +
        getOr0 fv2 "LF_FOREIGN_TAX_CREDIT_CFC"
      mapSet fv2 "LF_IPN_PAYABLE" (jsMax 0 (ipnCalculated - foreignCredit))
    else fv2
  { ctx with fieldValues := fv3 }

/-- Phase 7, `runEngine.autoSetFlags`: presentation flags derived from
the field totals. -/
def autoSetFlags (ctx : EngineContext) : EngineContext :=
  let fv := ctx.fieldValues
  let flags0 := ctx.flags
  let flags1 :=
    if getOr0 fv "LF_INCOME_TOTAL" > 0 then objAssign flags0 "has_income" (.bool true)
    else flags0
  let flags2 :=
    if getOr0 fv "LF_INCOME_FOREIGN_TOTAL" > 0 then
      objAssign (objAssign flags1 "has_foreign_income" (.bool true)) "pril_2" (.bool true)
    else flags1
  let flags3 :=
    if getOr0 fv "LF_INCOME_CFC_PROFIT" > 0 then
      objAssign (objAssign flags2 "has_cfc" (.bool true)) "pril_3" (.bool true)
    else flags2
  let flags4 :=
    if getOr0 fv "LF_DEDUCTION_TOTAL" > 0 then objAssign flags3 "has_deductions" (.bool true)
    else flags3
  let flags5 :=
    if getOr0 fv "LF_INCOME_PROPERTY_TOTAL" > 0 ||
       getOr0 fv "LF_INCOME_RENT_NON_AGENT" > 0 ||
       getOr0 fv "LF_INCOME_OTHER_NON_AGENT" > 0 then
      objAssign flags4 "pril_1" (.bool true)
    else flags4
  { ctx with flags := flags5 }

/-- The object returned by `runEngine.run` (field value `Map` converted
to a plain object and the excluded-id `Set` to an array, both keeping
insertion order). -/
structure RunResult where
  fieldValues : FieldMap
  mappings : List MappingRec
  calculations : List CalcRec
  flags : List (String × JVal)
  excludedEventIds : List JVal
  stats : Stats
  errors : List ErrorRec

/-- `runEngine.run`: the seven phases in order over a fixed (events,
rules) input.  The `options` argument of the JS function is unused
inside `run` itself (`allowEmpty` is checked by the calling service) and
is omitted.  Phases 4 and 6 can throw (malformed persisted calc/flag
rules), modelled with `Except`. -/
def run (events : List TaxEvent) (rules : List Rule) : Except String RunResult :=
  let ctx0 := initialContext
  let exclusionRules := rules.filter (fun r => r.rule_type = "exclusion")
  let ctx1 := applyExclusions events exclusionRules ctx0
  let mappingRules := rules.filter (fun r => r.rule_type = "mapping")
  let ctx2 := applyMappings events mappingRules ctx1
  let ctx3 := autoCalculateBaseTotals ctx2
  let calculationRules := rules.filter (fun r => r.rule_type = "calculation")
  match CalculationHandler.processAll calculationRules ctx3 with
  | (_, some e) => .error e
  | (ctx4, none) =>
    let ctx5 := autoCalculateDerivedFields ctx4
    let flagRules := rules.filter (fun r => r.rule_type = "flag")
    match FlagHandler.processConditionalFlags flagRules ctx5 with
    | (_, some e) => .error e
    | (ctx6, none) =>
      let ctx7 := autoSetFlags ctx6
      .ok
        { fieldValues := ctx7.fieldValues
          mappings := ctx7.mappings
          calculations := ctx7.calculations
          flags := ctx7.flags
          excludedEventIds := ctx7.excludedEventIds
          stats := ctx7.stats
          errors := ctx7.errors }

end RunEngine

/-- Replace every occurrence of one character (the JS global-regex
`String.replace(/c/g, r)` used by `escapeXml`). -/
def replaceAllChar (s : String) (c : Char) (r : String) : String :=
  String.join (s.data.map (fun ch => if ch = c then r else String.singleton ch))

namespace XmlGenerator

/-- The declaration header row as read by the XML builder (`snake_case`
columns of the `declarations` table; nullable text columns are
`Option`). -/
structure Declaration where
  tax_year : ℤ
  declaration_kind : Option String
  flags : JVal
  email : Option String
  fio_last : Option String
  fio_first : Option String
  fio_middle : Option String
  iin : Option String
  iin_legalrepresentative : Option String
  iin_spouse : Option String
  payer_phone : Option String

/-- `getItemsAsObject` output: logical field code → value. -/
abbrev Items := List (String × ℚ)

/-- `xmlGeneratorService.escapeXml`: sequential global replacement of
the five XML special characters (`&` first). -/
def escapeXml (s : String) : String :=
  replaceAllChar
    (replaceAllChar
      (replaceAllChar (replaceAllChar (replaceAllChar s '&' "&amp;") '<' "&lt;") '>' "&gt;")
      '"' "&quot;")
    (Char.ofNat 39) "&apos;"

/-- `xmlGeneratorService.field`: one `<field>` element; an empty escaped
value collapses to a self-closing element.  (Call sites stringify
numbers and default nullable columns to `''` before the call, as the JS
does.) -/
def field (name : String) (value : String) : String :=
  let escapedValue := escapeXml value
  if escapedValue = "" then "<field name=\"" ++ name ++ "\"/>\n"
  else "<field name=\"" ++ name ++ "\">" ++ escapedValue ++ "</field>\n"

/-- `xmlGeneratorService.formatMoney`: null/undefined and 0 render
empty; otherwise round to the nearest integer and print the digits. -/
def formatMoney (value : Option ℚ) : String :=
  match value with
  | none => ""
  | some q => if q = 0 then "" else toString (jsRound q)

/-- Truthiness test of a declaration flag (`flags.pril_N ? 'true' :
'false'`). -/
def flagStr (flags : JVal) (name : String) : String :=
  if (flags.getProp name).truthy then "true" else "false"

/-- A fixed grid of empty `<field>` placeholders: one field per
(column, row) pair, columns outermost — the nested `for` loops of forms
270.04/270.05. -/
def gridFields (pre : String) (cols : List String) (rows : ℕ) : String :=
  String.join (cols.map (fun col =>
    String.join ((List.range' 1 rows).map (fun i =>
      field (pre ++ col ++ "_" ++ toString i) ""))))

/-- `buildForm270_00`: title page with kind selectors, the snapshot
header and the `pril_1..7` appendix flags; `accept_date` and
`submit_date` carry the generation date. -/
def buildForm270_00 (d : Declaration) (taxYear : ℤ) (dateStr : String) (flags : JVal) :
    String :=
  let headName :=
    String.intercalate " "
      (([d.fio_last, d.fio_first, d.fio_middle].filterMap id).filter (fun s => s ≠ ""))
  "<form name=\"form_270_00\">\n<sheetGroup>\n<sheet name=\"page_270_00_01\">\n" ++
  field "accept_date" dateStr ++
  field "agreement" "false" ++
  field "dt_additional" (if d.declaration_kind = some "additional" then "true" else "false") ++
  field "dt_main" (if d.declaration_kind = some "main" then "true" else "false") ++
  field "dt_notice" (if d.declaration_kind = some "notice" then "true" else "false") ++
  field "dt_regular" (if d.declaration_kind = some "regular" then "true" else "false") ++
  field "dt_w" "false" ++
  field "email" (d.email.getD "") ++
  field "fio1" (d.fio_last.getD "") ++
  field "fio2" (d.fio_first.getD "") ++
  field "fio3" (d.fio_middle.getD "") ++
  field "head_name" headName ++
  field "iin" (d.iin.getD "") ++
  field "iin_legalrepresentative" (d.iin_legalrepresentative.getD "") ++
  field "iin_spouse" (d.iin_spouse.getD "") ++
  field "in_doc_number" "" ++
  field "payer_phone_number" (d.payer_phone.getD "") ++
  field "period_year" (toString taxYear) ++
  field "post_date" "" ++
  field "pril_1" (flagStr flags "pril_1") ++
  field "pril_2" (flagStr flags "pril_2") ++
  field "pril_3" (flagStr flags "pril_3") ++
  field "pril_4" (flagStr flags "pril_4") ++
  field "pril_5" (flagStr flags "pril_5") ++
  field "pril_6" (flagStr flags "pril_6") ++
  field "pril_7" (flagStr flags "pril_7") ++
  field "rating_auth_code" "" ++
  field "receptor_name" "" ++
  field "submit_date" dateStr ++
  "</sheet>\n<sheet name=\"page_270_00_02\"/>\n</sheetGroup>\n</form>\n"

/-- `buildForm270_01`: appendix 1, the computed income / deduction /
tax lines projected from the declaration items. -/
def buildForm270_01 (d : Declaration) (items : Items) (taxYear : ℤ) : String :=
  "<form name=\"form_270_01\">\n<sheetGroup>\n<sheet name=\"page_270_01_01\">\n" ++
  field "field_270_01_A" (formatMoney (mapGet items "LF_INCOME_PROPERTY_TOTAL")) ++
  field "field_270_01_A_1" (formatMoney (mapGet items "LF_INCOME_PROPERTY_SALE")) ++
  field "field_270_01_A_1_1" (formatMoney (mapGet items "LF_INCOME_PROPERTY_KZ")) ++
  field "field_270_01_A_1_2" (formatMoney (mapGet items "LF_INCOME_PROPERTY_FOREIGN")) ++
  field "field_270_01_A_2" (formatMoney (mapGet items "LF_INCOME_PROPERTY_CAPITAL_CONTRIBUTION")) ++
  field "field_270_01_A_3" (formatMoney (mapGet items "LF_INCOME_RENT_NON_AGENT")) ++
  field "field_270_01_A_4" (formatMoney (mapGet items "LF_INCOME_ASSIGNMENT_RIGHTS")) ++
  field "field_270_01_A_5" (formatMoney (mapGet items "LF_INCOME_IP_OTHER_ASSETS")) ++
  field "field_270_01_B" (formatMoney (mapGet items "LF_INCOME_OTHER_TOTAL")) ++
  field "field_270_01_B_1" (formatMoney (mapGet items "LF_INCOME_FOREIGN_TOTAL")) ++
  field "field_270_01_B_1_1" (formatMoney (mapGet items "LF_INCOME_FOREIGN_EMPLOYMENT")) ++
  field "field_270_01_B_1_2" (formatMoney (mapGet items "LF_INCOME_FOREIGN_GPC")) ++
  field "field_270_01_B_1_3" (formatMoney (mapGet items "LF_INCOME_FOREIGN_WIN")) ++
  field "field_270_01_B_1_4" (formatMoney (mapGet items "LF_INCOME_FOREIGN_DIVIDENDS")) ++
  field "field_270_01_B_1_5" (formatMoney (mapGet items "LF_INCOME_FOREIGN_INTEREST")) ++
  field "field_270_01_B_1_6" (formatMoney (mapGet items "LF_INCOME_FOREIGN_SCHOLARSHIP")) ++
  field "field_270_01_B_1_7" (formatMoney (mapGet items "LF_INCOME_FOREIGN_INSURANCE")) ++
  field "field_270_01_B_1_8" (formatMoney (mapGet items "LF_INCOME_FOREIGN_PENSION")) ++
  field "field_270_01_B_1_9" (formatMoney (mapGet items "LF_INCOME_FOREIGN_OTHER")) ++
  field "field_270_01_B_2" (formatMoney (mapGet items "LF_INCOME_DOMESTIC_HELPERS")) ++
  field "field_270_01_B_3" (formatMoney (mapGet items "LF_INCOME_CITIZENS_GPC")) ++
  field "field_270_01_B_4" (formatMoney (mapGet items "LF_INCOME_MEDIATOR")) ++
  field "field_270_01_B_5" (formatMoney (mapGet items "LF_INCOME_SUBSIDIARY_FARM")) ++
  field "field_270_01_B_6" (formatMoney (mapGet items "LF_INCOME_LABOR_MIGRANT")) ++
  field "field_270_01_B_7" (formatMoney (mapGet items "LF_INCOME_OTHER_NON_AGENT")) ++
  field "field_270_01_C" (formatMoney (mapGet items "LF_INCOME_CFC_PROFIT")) ++
  field "field_270_01_D" (formatMoney (mapGet items "LF_INCOME_TOTAL")) ++
  field "field_270_01_E" (formatMoney (mapGet items "LF_ADJUSTMENT_TOTAL")) ++
  field "field_270_01_E_1" (formatMoney (mapGet items "LF_ADJUSTMENT_EXCLUDED_ART_341")) ++
  field "field_270_01_E_2" (formatMoney (mapGet items "LF_ADJUSTMENT_EXCLUDED_ART_654")) ++
  field "field_270_01_E_3" (formatMoney (mapGet items "LF_ADJUSTMENT_EXCLUDED_TREATY")) ++
  field "field_270_01_E_4" (formatMoney (mapGet items "LF_ADJUSTMENT_EXCLUDED_AIFC")) ++
  field "field_270_01_F" (formatMoney (mapGet items "LF_DEDUCTION_TOTAL")) ++
  field "field_270_01_F_1" (formatMoney (mapGet items "LF_DEDUCTION_STANDARD")) ++
  field "field_270_01_F_2" (formatMoney (mapGet items "LF_DEDUCTION_OTHER")) ++
  field "field_270_01_G" (formatMoney (mapGet items "LF_TAXABLE_INCOME")) ++
  field "field_270_01_H" (formatMoney (mapGet items "LF_IPN_CALCULATED")) ++
  field "field_270_01_I" (formatMoney (mapGet items "LF_FOREIGN_TAX_CREDIT_GENERAL")) ++
  field "field_270_01_J" (formatMoney (mapGet items "LF_FOREIGN_TAX_CREDIT_CFC")) ++
  field "field_270_01_K" (formatMoney (mapGet items "LF_IPN_PAYABLE")) ++
  field "field_270_01_bin" "" ++
  field "iin" (d.iin.getD "") ++
  field "page_number" "1" ++
  field "period_year" (toString taxYear) ++
  "</sheet>\n</sheetGroup>\n</form>\n"

/-- `buildForm270_02`: bank / payment details page (static empties plus
the KBK constant). -/
def buildForm270_02 (d : Declaration) (taxYear : ℤ) : String :=
  "<form name=\"form_270_02\">\n<sheetGroup>\n<sheet name=\"page_270_02_01\">\n" ++
  field "bank_code" "" ++
  field "iik" "" ++
  field "field_270_02_B" "" ++
  field "field_270_02_C" "" ++
  field "field_270_02_kbk_01" "101201" ++
  field "field_270_02_kogd_01" "" ++
  field "field_270_02_tax_01" "" ++
  field "field_270_02_pen_01" "" ++
  field "field_270_02_kbk_02" "" ++
  field "field_270_02_kogd_02" "" ++
  field "field_270_02_tax_02" "" ++
  field "iin" (d.iin.getD "") ++
  field "page_number" "1" ++
  field "period_year" (toString taxYear) ++
  "</sheet>\n</sheetGroup>\n</form>\n"

/-- `buildForm270_03`: tax-agent income rows `B_1..B_12` and withheld
IPN rows `C_1..C_12`, all empty. -/
def buildForm270_03 (d : Declaration) (taxYear : ℤ) : String :=
  "<form name=\"form_270_03\">\n<sheetGroup>\n<sheet name=\"page_270_03_01\">\n" ++
  field "field_270_03_B" "" ++
  String.join ((List.range' 1 12).map (fun i => field ("field_270_03_B_" ++ toString i) "")) ++
  field "field_270_03_C" "" ++
  String.join ((List.range' 1 12).map (fun i => field ("field_270_03_C_" ++ toString i) "")) ++
  field "field_270_03_bin" "" ++
  field "field_270_03_tax_org" "" ++
  field "iin" (d.iin.getD "") ++
  field "page_number" "1" ++
  field "period_year" (toString taxYear) ++
  "</sheet>\n</sheetGroup>\n</form>\n"

/-- `buildForm270_04`: the four empty placeholder grids (sections B, C,
D, E) in their declared order. -/
def buildForm270_04 (d : Declaration) (taxYear : ℤ) : String :=
  "<form name=\"form_270_04\">\n<sheetGroup>\n<sheet name=\"page_270_04_01\">\n" ++
  gridFields "field_270_04_B_" ["A", "B", "C", "E", "F", "G", "H", "I"] 6 ++
  gridFields "field_270_04_C_" ["A", "B", "C", "D", "E"] 6 ++
  gridFields "field_270_04_D_" ["A", "B", "C", "D", "F", "G"] 5 ++
  gridFields "field_270_04_E_" ["A", "B", "C", "D", "E"] 5 ++
  field "iin" (d.iin.getD "") ++
  field "page_number" "1" ++
  field "period_year" (toString taxYear) ++
  "</sheet>\n</sheetGroup>\n</form>\n"

/-- `buildForm270_05`: the two empty placeholder grids (sections B, C). -/
def buildForm270_05 (d : Declaration) (taxYear : ℤ) : String :=
  "<form name=\"form_270_05\">\n<sheetGroup>\n<sheet name=\"page_270_05_01\">\n" ++
  gridFields "field_270_05_B_" ["A", "B", "C", "D", "E", "F", "G", "I", "J", "K", "L"] 11 ++
  gridFields "field_270_05_C_" ["A", "B", "C", "D", "E", "F", "G", "H"] 11 ++
  field "iin" (d.iin.getD "") ++
  field "page_number" "1" ++
  field "period_year" (toString taxYear) ++
  "</sheet>\n</sheetGroup>\n</form>\n"

/-- `buildForm270_06`: header fields then four empty `<row>` blocks. -/
def buildForm270_06 (d : Declaration) (taxYear : ℤ) : String :=
  "<form name=\"form_270_06\">\n<sheetGroup>\n<sheet name=\"page_270_06_01\">\n" ++
  field "iin" (d.iin.getD "") ++
  field "page_number" "1" ++
  field "period_year" (toString taxYear) ++
  String.join (List.replicate 4
    ("<row>\n" ++
     field "field_270_06_A" "" ++
     field "field_270_06_B" "" ++
     field "field_270_06_C" "" ++
     field "field_270_06_D" "" ++
     field "field_270_06_F" "" ++
     field "field_270_06_G" "" ++
     "</row>\n")) ++
  "</sheet>\n</sheetGroup>\n</form>\n"

/-- `buildForm270_07`: header fields then four empty `<row>` blocks. -/
def buildForm270_07 (d : Declaration) (taxYear : ℤ) : String :=
  "<form name=\"form_270_07\">\n<sheetGroup>\n<sheet name=\"page_270_07_01\">\n" ++
  field "iin" (d.iin.getD "") ++
  field "page_number" "1" ++
  field "period_year" (toString taxYear) ++
  String.join (List.replicate 4
    ("<row>\n" ++
     field "field_270_07_A" "" ++
     field "field_270_07_B" "" ++
     field "field_270_07_C" "" ++
     field "field_270_07_D" "" ++
     field "field_270_07_F" "" ++
     field "field_270_07_M" "" ++
     "</row>\n")) ++
  "</sheet>\n</sheetGroup>\n</form>\n"

/-- `xmlGeneratorService.buildXml`: the full `<fno>` document.  In the
source the generation date is `formatDate(new Date())` — the ambient
wall clock, made an explicit `dateStr` argument here (`DD.MM.YYYY`). -/
def buildXml (d : Declaration) (items : Items) (dateStr : String) : String :=
  let taxYear := d.tax_year
  let flags := if d.flags.truthy then d.flags else .obj []
  "<?xml version=\"1.0\" encoding=\"UTF-8\"?>\n" ++
  "<fno xmlns:xs=\"http://www.w3.org/2001/XMLSchema\" xmlns:fn=\"http://www.w3.org/2005/xpath-functions\" xmlns:ds=\"http://www.w3.org/2000/09/xmldsig#\" code=\"270.00\" formatVersion=\"1\" version=\"2\">\n" ++
  buildForm270_00 d taxYear dateStr flags ++
  buildForm270_01 d items taxYear ++
  buildForm270_02 d taxYear ++
  buildForm270_03 d taxYear ++
  buildForm270_04 d taxYear ++
  buildForm270_05 d taxYear ++
  buildForm270_06 d taxYear ++
  buildForm270_07 d taxYear ++
  "</fno>\n"

end XmlGenerator

/-- One hexadecimal digit. -/
def hexDigit (n : ℕ) : Char :=
  if n < 10 then Char.ofNat (48 + n) else Char.ofNat (97 + (n - 10))

/-- JSON string quoting as performed by `JSON.stringify`. -/
def quoteJsonChar (c : Char) : String :=
  if c = '"' then "\\\""
  else if c = '\\' then "\\\\"
  else if c = '\n' then "\\n"
  else if c = '\r' then "\\r"
  else if c = '\t' then "\\t"
  else if c = Char.ofNat 8 then "\\b"
  else if c = Char.ofNat 12 then "\\f"
  else if c.toNat < 32 then
    "\\u00" ++ String.singleton (hexDigit (c.toNat / 16)) ++
      String.singleton (hexDigit (c.toNat % 16))
  else String.singleton c

/-- A quoted JSON string literal. -/
def quoteJson (s : String) : String :=
  "\"" ++ String.join (s.data.map quoteJsonChar) ++ "\""

namespace SourcesRepository

mutual

/-- `JSON.stringify(value, propertyList)`: serialization with an array
replacer.  The property list filters and orders the keys of **every**
object at **every** depth; arrays are serialized in full; `undefined`
yields no output (`none`).  Numbers are the repository's JSON numerics
(integers render exactly). -/
def stringifyWith (keyList : List String) (v : JVal) : Option String :=
  match v with
  | .undef => none
  | .null => some "null"
  | .bool b => some (if b then "true" else "false")
  | .num q => some (qToString q)
  | .str s => some (quoteJson s)
  | .arr elems => some ("[" ++ String.intercalate "," (stringifyArr keyList elems) ++ "]")
  | .obj fields =>
    some ("\x7b" ++ String.intercalate "," (stringifyObjProps keyList keyList fields) ++ "\x7d")
termination_by (sizeOf v, 0)
decreasing_by
all_goals simp_wf
all_goals (apply Prod.Lex.left; (try simp); (try omega))

/-- Array elements under an array replacer: every element is serialized
(the filter does not apply to indices); `undefined` elements render as
`null`. -/
def stringifyArr (keyList : List String) (elems : List JVal) : List String :=
  match elems with
  | [] => []
  | e :: rest => ((stringifyWith keyList e).getD "null") :: stringifyArr keyList rest
termination_by (sizeOf elems, 0)
decreasing_by
all_goals simp_wf
all_goals (apply Prod.Lex.left; (try simp); (try omega))

/-- Object members under an array replacer: iterate the property list in
order, emitting `"k":v` for each key the object actually has (with a
defined value). -/
def stringifyObjProps (keyList : List String) (keysToEmit : List String)
    (fields : List (String × JVal)) : List String :=
  match keysToEmit with
  | [] => []
  | k :: rest =>
    match h : lookupField fields k with
    | some v =>
      match stringifyWith keyList v with
      | some sv => (quoteJson k ++ ":" ++ sv) :: stringifyObjProps keyList rest fields
      | none => stringifyObjProps keyList rest fields
    | none => stringifyObjProps keyList rest fields
termination_by (sizeOf fields, keysToEmit.length)
decreasing_by
all_goals simp_wf
all_goals first
  | (apply Prod.Lex.right; omega)
  | (apply Prod.Lex.left; have := sizeOf_lookupField h; (try simp); (try omega))

end

/-- `sourcesRepository.generateChecksum`:
`sha256(JSON.stringify(payload, Object.keys(payload).sort()))` — the
**top-level** keys, sorted (JS default sort: lexicographic), serve as
the replacer array at every depth.  The SHA-256 hex digest is the
`hash` parameter (any function of the serialized string). -/
def generateChecksum (hash : String → String) (payload : JVal) : String :=
  let normalized :=
    (stringifyWith ((payload.keys).mergeSort (fun a b => a ≤ b)) payload).getD "undefined"
  hash normalized

end SourcesRepository

/-- A `source_records` row as the ingestion service sees it. -/
structure SourceRecord where
  id : String
  tax_identity_id : String
  source_type : String
  external_id : Option String
  checksum : String
deriving DecidableEq

namespace SourcesService

/-- The service's source-kind whitelist. -/
def VALID_SOURCE_TYPES : List String := ["manual", "csv", "excel", "bank", "1c", "api"]

/-- `sourcesService.importRecord`: validate the source type and payload,
check access, compute the checksum and refuse duplicates by
(taxpayer, checksum) and then by external id, else insert.  The store
is the `source_records` table restricted to the relevant columns;
`hash` abstracts SHA-256; `newId` the generated UUID.  Errors carry the
service's thrown messages. -/
def importRecord (hash : String → String) (store : List SourceRecord)
    (hasAccess : Bool) (newId : String) (taxIdentityId : String)
    (sourceType : String) (externalId : Option String) (rawPayload : JVal) :
    Except String (SourceRecord × List SourceRecord) :=
  if (VALID_SOURCE_TYPES.contains sourceType) = false then
    .error ("Неверный тип источника. Допустимые: " ++ String.intercalate ", " VALID_SOURCE_TYPES)
  else if (rawPayload.truthy && rawPayload.isObjLike) = false then
    .error "raw_payload обязателен и должен быть объектом"
  else if hasAccess = false then
    .error "Нет доступа к этому налогоплательщику"
  else
    let checksum := SourcesRepository.generateChecksum hash rawPayload
    if store.any (fun r => r.tax_identity_id = taxIdentityId && r.checksum = checksum) then
      .error "Запись с такими данными уже существует"
    else
      match externalId with
      | some ext =>
        if store.any (fun r => r.tax_identity_id = taxIdentityId && r.external_id = some ext) then
          .error ("Запись с external_id \"" ++ ext ++ "\" уже существует")
        else
          let record : SourceRecord :=
            { id := newId
              tax_identity_id := taxIdentityId
              source_type := sourceType
              external_id := some ext
              checksum := checksum }
          .ok (record, store ++ [record])
      | none =>
        let record : SourceRecord :=
          { id := newId
            tax_identity_id := taxIdentityId
            source_type := sourceType
            external_id := none
            checksum := checksum }
        .ok (record, store ++ [record])

end SourcesService

namespace DeclarationsService

/-- The declaration state relevant to `generate`: workflow status, the
`declaration_items` rows (field → value) and the JSONB flags. -/
structure DeclState where
  status : String
  items : List (String × ℚ)
  flags : List (String × JVal)

/-- `declarationsService.generate`, status guard and persistence step:
only `submitted` and `accepted` are refused; otherwise all existing
items are deleted and the engine's field values inserted
(`deleteItems` + `bulkUpsertItems` when the engine produced any), and
the declaration flags are overwritten when the engine produced any.
`bulkUpsertItems` skips every entry whose value fails
`value !== null && value !== undefined && value !== 0`; over numeric
engine outputs that is exactly the entries with value 0.  The engine
run itself is abstracted to its `fieldValues`/`flags` output. -/
def generate (d : DeclState) (engineFieldValues : List (String × ℚ))
    (engineFlags : List (String × JVal)) : Except String DeclState :=
  if ["submitted", "accepted"].contains d.status then
    .error "Cannot regenerate submitted declaration. Create additional declaration instead."
  else
    .ok
      { d with
          items :=
            if engineFieldValues.isEmpty then []
            else engineFieldValues.filter (fun p => p.2 != 0)
          flags := if engineFlags.isEmpty then d.flags else engineFlags }

/-- A persisted `validation_reports` row. -/
structure VReport where
  kind : String
  is_valid : Bool
  report : String
deriving DecidableEq

/-- Result of `declarationsService.validate`: the reports table after
the call, the declaration's status after the call, and the outcome (the
thrown message or the success payload). -/
structure ValidateResult where
  reports : List VReport
  status : String
  outcome : Except String String

/-- The three required logical fields of the business validation gate. -/
def requiredFields : List String :=
  ["LF_INCOME_TOTAL", "LF_TAXABLE_INCOME", "LF_IPN_CALCULATED"]

/-- `declarationsService.validate`: with no items it throws immediately
(no report is written); with items but missing required fields it
persists an invalid business report and throws; otherwise it persists a
valid business report and moves the declaration to `validated`. -/
def validate (status : String) (itemFields : List String) (reports : List VReport) :
    ValidateResult :=
  if itemFields.isEmpty then
    { reports := reports
      status := status
      outcome := .error "Declaration has no items. Generate declaration first." }
  else
    let missing := requiredFields.filter (fun r => (itemFields.contains r) = false)
    if missing.isEmpty = false then
      { reports := reports ++
          [{ kind := "business", is_valid := false
             report := "Missing required fields: " ++ String.intercalate ", " missing }]
        status := status
        outcome := .error ("Missing required fields: " ++ String.intercalate ", " missing) }
    else
      { reports := reports ++
          [{ kind := "business", is_valid := true, report := "All business rules passed" }]
        status := "validated"
        outcome := .ok "Declaration validated successfully" }

end DeclarationsService

/-- Reading back a key just set. -/
theorem mapGet_mapSet_self (fv : FieldMap) (k : String) (v : ℚ) :
    mapGet (mapSet fv k v) k = some v := by
  induction fv with
  | nil => simp [mapSet, mapGet]
  | cons p rest ih =>
    cases p with
    | mk k' w =>
      by_cases h : k' = k
      · simp [mapSet, mapGet, h]
      · simp [mapSet, mapGet, h, ih]

/-- Setting one key leaves every other key unchanged. -/
theorem mapGet_mapSet_ne (fv : FieldMap) {k k' : String} (h : k ≠ k') (v : ℚ) :
    mapGet (mapSet fv k v) k' = mapGet fv k' := by
  induction fv with
  | nil => simp [mapSet, mapGet, h]
  | cons p rest ih =>
    cases p with
    | mk k0 w =>
      by_cases h0 : k0 = k
      · subst h0
        simp [mapSet, mapGet, h]
      · simp [mapSet, mapGet, h0, ih]

/-- C3: after phase 5 of an engine run in which the three derived fields
were not pre-set, `LF_TAXABLE_INCOME = max(0, LF_INCOME_TOTAL −
LF_ADJUSTMENT_TOTAL − LF_DEDUCTION_TOTAL)` (hence ≥ 0),
`LF_IPN_CALCULATED = round(LF_TAXABLE_INCOME × 0.10)` to the nearest
integer, and `LF_IPN_PAYABLE = max(0, LF_IPN_CALCULATED −
LF_FOREIGN_TAX_CREDIT_GENERAL − LF_FOREIGN_TAX_CREDIT_CFC)`, with
missing operand fields read as 0. -/
theorem C3_derived_fields_formulas (ctx : EngineContext)
    (hT : mapGet ctx.fieldValues "LF_TAXABLE_INCOME" = none)
    (hC : mapGet ctx.fieldValues "LF_IPN_CALCULATED" = none)
    (hP : mapGet ctx.fieldValues "LF_IPN_PAYABLE" = none) :
    mapGet (RunEngine.autoCalculateDerivedFields ctx).fieldValues "LF_TAXABLE_INCOME" =
      some (jsMax 0 (getOr0 ctx.fieldValues "LF_INCOME_TOTAL" -
        getOr0 ctx.fieldValues "LF_ADJUSTMENT_TOTAL" -
        getOr0 ctx.fieldValues "LF_DEDUCTION_TOTAL")) ∧
    (0 : ℚ) ≤ jsMax 0 (getOr0 ctx.fieldValues "LF_INCOME_TOTAL" -
        getOr0 ctx.fieldValues "LF_ADJUSTMENT_TOTAL" -
        getOr0 ctx.fieldValues "LF_DEDUCTION_TOTAL") ∧
    mapGet (RunEngine.autoCalculateDerivedFields ctx).fieldValues "LF_IPN_CALCULATED" =
      some ((jsRound (jsMax 0 (getOr0 ctx.fieldValues "LF_INCOME_TOTAL" -
        getOr0 ctx.fieldValues "LF_ADJUSTMENT_TOTAL" -
        getOr0 ctx.fieldValues "LF_DEDUCTION_TOTAL") * (1 / 10)) : ℚ)) ∧
    mapGet (RunEngine.autoCalculateDerivedFields ctx).fieldValues "LF_IPN_PAYABLE" =
      some (jsMax 0 ((jsRound (jsMax 0 (getOr0 ctx.fieldValues "LF_INCOME_TOTAL" -
            getOr0 ctx.fieldValues "LF_ADJUSTMENT_TOTAL" -
            getOr0 ctx.fieldValues "LF_DEDUCTION_TOTAL") * (1 / 10)) : ℚ) -
          getOr0 ctx.fieldValues "LF_FOREIGN_TAX_CREDIT_GENERAL" -
          getOr0 ctx.fieldValues "LF_FOREIGN_TAX_CREDIT_CFC")) := by
  have neTC : "LF_TAXABLE_INCOME" ≠ "LF_IPN_CALCULATED" := by decide
  have neTP : "LF_TAXABLE_INCOME" ≠ "LF_IPN_PAYABLE" := by decide
  have neCP : "LF_IPN_CALCULATED" ≠ "LF_IPN_PAYABLE" := by decide
  have neCT : "LF_IPN_CALCULATED" ≠ "LF_TAXABLE_INCOME" := by decide
  have nePT : "LF_IPN_PAYABLE" ≠ "LF_TAXABLE_INCOME" := by decide
  have nePC : "LF_IPN_PAYABLE" ≠ "LF_IPN_CALCULATED" := by decide
  have neTG : "LF_TAXABLE_INCOME" ≠ "LF_FOREIGN_TAX_CREDIT_GENERAL" := by decide
  have neCG : "LF_IPN_CALCULATED" ≠ "LF_FOREIGN_TAX_CREDIT_GENERAL" := by decide
  have neTF : "LF_TAXABLE_INCOME" ≠ "LF_FOREIGN_TAX_CREDIT_CFC" := by decide
  have neCF : "LF_IPN_CALCULATED" ≠ "LF_FOREIGN_TAX_CREDIT_CFC" := by decide
  simp [RunEngine.autoCalculateDerivedFields, mapHas, hT, hC, hP, getOr0,
    mapGet_mapSet_self, mapGet_mapSet_ne _ neTC, mapGet_mapSet_ne _ neTP,
    mapGet_mapSet_ne _ neCP, mapGet_mapSet_ne _ neCT, mapGet_mapSet_ne _ nePT,
    mapGet_mapSet_ne _ nePC, mapGet_mapSet_ne _ neTG, mapGet_mapSet_ne _ neCG,
    mapGet_mapSet_ne _ neTF, mapGet_mapSet_ne _ neCF, le_jsMax_left, sub_sub]

/-- Concrete engine context for the C3 witness: an income total of 5
with no derived fields pre-set. -/
def c3ctx : EngineContext := { initialContext with fieldValues := [("LF_INCOME_TOTAL", 5)] }

set_option maxRecDepth 8000 in
/-- Witness for C3: income 5 yields taxable 5, calculated IPN
`round(0.5) = 1` and payable 1. -/
theorem C3_derived_fields_formulas_witness :
    mapGet c3ctx.fieldValues "LF_TAXABLE_INCOME" = none ∧
    mapGet c3ctx.fieldValues "LF_IPN_CALCULATED" = none ∧
    mapGet c3ctx.fieldValues "LF_IPN_PAYABLE" = none ∧
    mapGet (RunEngine.autoCalculateDerivedFields c3ctx).fieldValues "LF_TAXABLE_INCOME" =
      some 5 ∧
    mapGet (RunEngine.autoCalculateDerivedFields c3ctx).fieldValues "LF_IPN_CALCULATED" =
      some 1 ∧
    mapGet (RunEngine.autoCalculateDerivedFields c3ctx).fieldValues "LF_IPN_PAYABLE" =
      some 1 := by
  have h := C3_derived_fields_formulas c3ctx (by decide) (by decide) (by decide)
  exact ⟨by decide, by decide, by decide,
    h.1.trans (by with_unfolding_all decide),
    h.2.2.1.trans (by with_unfolding_all decide),
    h.2.2.2.trans (by with_unfolding_all decide)⟩

/-- Folding `Math.max` from a nonnegative accumulator stays
nonnegative. -/
theorem maxList_nonneg (l : List ℚ) (acc : ℚ) (h : 0 ≤ acc) : 0 ≤ maxList l acc := by
  induction l generalizing acc with
  | nil => exact h
  | cons v rest ih =>
    have : (0 : ℚ) ≤ jsMax acc v := le_trans h (le_jsMax_left acc v)
    simpa [maxList, List.foldl] using ih (jsMax acc v) this

set_option maxHeartbeats 1000000 in
/-- C9 counterexample: the two-operand `{a, b}` form of `max` has no
implicit 0 floor — `max(a: -5, b: -3)` evaluates to `-3 < 0`,
contradicting "the result is never negative … in both the n-ary refs
form and the two-operand form". -/
theorem C9_max_two_operand_counterexample :
    FormulaEvaluator.evaluateOperation
      (.obj [("op", .str "max"), ("a", .num (-5)), ("b", .num (-3))]) [] = -3 ∧
    FormulaEvaluator.evaluateOperation
      (.obj [("op", .str "max"), ("a", .num (-5)), ("b", .num (-3))]) [] < 0 := by
  unfold FormulaEvaluator.evaluateOperation
  simp [FormulaEvaluator.evaluate, JVal.getProp, lookupField, JVal.truthy, jsStrictEq, jsMax]
  norm_num

set_option maxHeartbeats 1000000 in
/-- C9 amended: the implicit 0 floor belongs to the n-ary `refs` form
only — `Math.max(...values, 0)` is never negative — while the
two-operand `{a, b}` form is the plain maximum of the two resolved
operands (and can be negative, see the counterexample). -/
theorem C9_max_amended (refs : List JVal) (a b : JVal) (fv : FieldMap) :
    0 ≤ FormulaEvaluator.evaluateOperation
      (.obj [("op", .str "max"), ("refs", .arr refs)]) fv ∧
    FormulaEvaluator.evaluateOperation
      (.obj [("op", .str "max"), ("a", a), ("b", b)]) fv =
      jsMax (FormulaEvaluator.evaluate a fv) (FormulaEvaluator.evaluate b fv) := by
  constructor
  · unfold FormulaEvaluator.evaluateOperation
    simp [JVal.getProp, lookupField, jsStrictEq]
    exact maxList_nonneg _ 0 le_rfl
  · unfold FormulaEvaluator.evaluateOperation
    simp [JVal.getProp, lookupField, jsStrictEq]

/-- C10: `conditionEvaluator.evaluate` returns `true` on null/absent
conditions, and on any conditions object matching none of the
recognized shapes — no `always: true`, no `all`/`any` array, no truthy
`field`+`op` pair, and not a single-key compact form whose value is a
truthy object with exactly one operator key — so a malformed condition
silently matches every event. -/
theorem C10_unrecognized_conditions_match_true (event : TaxEvent)
    (kvs : List (String × JVal))
    (halways : jsStrictEq ((JVal.obj kvs).getProp "always") (.bool true) = false)
    (hall : ∀ l, (JVal.obj kvs).getProp "all" ≠ .arr l)
    (hany : ∀ l, (JVal.obj kvs).getProp "any" ≠ .arr l)
    (hfieldop : (((JVal.obj kvs).getProp "field").truthy &&
      ((JVal.obj kvs).getProp "op").truthy) = false)
    (hcompact : ∀ f, (JVal.obj kvs).keys = [f] →
      (((JVal.obj kvs).getProp f).truthy && ((JVal.obj kvs).getProp f).isObjLike) = true →
      ((JVal.obj kvs).getProp f).keys.length ≠ 1) :
    ConditionEvaluator.evaluate .null event = true ∧
    ConditionEvaluator.evaluate (JVal.obj kvs) event = true := by
  constructor
  · rfl
  · unfold ConditionEvaluator.evaluate
    rw [if_neg (by simp [JVal.truthy]), if_neg (by simp [halways])]
    cases hva : (JVal.obj kvs).getProp "all"
    case arr l => exact absurd hva (hall l)
    all_goals try simp only [hva]
    all_goals cases hvy : (JVal.obj kvs).getProp "any"
    all_goals try (exact absurd hvy (hany _))
    all_goals try simp only [hvy]
    all_goals rw [if_neg (by rw [hfieldop]; simp)]
    all_goals (
      cases hks : (JVal.obj kvs).keys with
      | nil => simp [hks]
      | cons a rest =>
        cases rest with
        | cons b r2 => simp [hks]
        | nil =>
          simp only [hks]
          by_cases hc : (((JVal.obj kvs).getProp a).truthy &&
              ((JVal.obj kvs).getProp a).isObjLike) = true
          · have hlen := hcompact a hks hc
            rw [if_pos hc]
            cases hops : ((JVal.obj kvs).getProp a).keys with
            | nil => simp [hops]
            | cons op rest2 =>
              cases rest2 with
              | nil => rw [hops] at hlen; simp at hlen
              | cons c r3 => simp [hops]
          · rw [if_neg hc])

/-- A sample tax event used by concrete witnesses. -/
def sampleEvent : TaxEvent :=
  { id := .str "e1"
    event_type := .str "EV_FOREIGN_DIVIDENDS"
    event_date := .str "2024-06-15"
    amount := some 5
    currency := .str "KZT"
    tax_year := .num 2024
    source_record_id := .str "s1"
    metadata := .obj [] }

/-- Witness for C10: the unrecognized shape `{always: false}` (not the
`always: true` form, no `all`/`any`/`field`/`op`, and its single value
is not an object) matches the sample event. -/
theorem C10_unrecognized_conditions_match_true_witness :
    ConditionEvaluator.evaluate (JVal.obj [("always", JVal.bool false)]) sampleEvent = true := by
  refine (C10_unrecognized_conditions_match_true sampleEvent [("always", JVal.bool false)]
    (by decide) ?_ ?_ (by decide) ?_).2
  · intro l h
    simp [JVal.getProp, lookupField] at h
  · intro l h
    simp [JVal.getProp, lookupField] at h
  · intro f hf hc
    simp [JVal.keys] at hf
    subst hf
    simp [JVal.getProp, lookupField, JVal.truthy, JVal.isObjLike] at hc

/-- C4 counterexample: validating a draft declaration with zero items is
refused and the status stays `draft`, but **no** ValidationReport is
persisted (the reports table is unchanged), contradicting "persists an
invalid business ValidationReport". -/
theorem C4_zero_items_no_report_counterexample :
    (DeclarationsService.validate "draft" [] []).reports = [] ∧
    (DeclarationsService.validate "draft" [] []).status = "draft" ∧
    (DeclarationsService.validate "draft" [] []).outcome =
      .error "Declaration has no items. Generate declaration first." :=
  ⟨rfl, rfl, rfl⟩

/-- C4 amended: for a declaration with zero items, `validate` refuses
the transition ("Declaration has no items") and leaves the status
unchanged, but writes no ValidationReport at all; the invalid business
report is persisted only on the other failure path (items present but
required fields missing). -/
theorem C4_validate_zero_items_amended (status : String)
    (reports : List DeclarationsService.VReport) :
    (DeclarationsService.validate status [] reports).outcome =
      .error "Declaration has no items. Generate declaration first." ∧
    (DeclarationsService.validate status [] reports).status = status ∧
    (DeclarationsService.validate status [] reports).reports = reports := by
  unfold DeclarationsService.validate
  simp [List.isEmpty]

/-- C5 counterexample: a declaration in status `awaiting_consent` is
**not** refused by `generate` — the regeneration proceeds and replaces
its items — contradicting "for every declaration in any other status
(awaiting_consent, signed, submitted, accepted, rejected) the operation
is refused". -/
theorem C5_awaiting_consent_not_refused_counterexample :
    DeclarationsService.generate ⟨"awaiting_consent", [("LF_INCOME_TOTAL", 1)], []⟩
      [("LF_INCOME_TOTAL", 2)] [] =
      .ok ⟨"awaiting_consent", [("LF_INCOME_TOTAL", 2)], []⟩ := by
  with_unfolding_all rfl

/-- C5 amended: `generate` refuses regeneration exactly when the status
is `submitted` or `accepted` (error, no state change); in every other
status — `draft`, `validated`, but also `awaiting_consent`, `signed`
and `rejected` — it proceeds, replacing all items with the engine's
field values minus the entries `bulkUpsertItems` skips (those with
value 0), and overwriting flags when the engine produced any. -/
theorem C5_generate_guard_amended (d : DeclarationsService.DeclState)
    (fv : List (String × ℚ)) (fl : List (String × JVal)) :
    (d.status = "submitted" ∨ d.status = "accepted" →
      DeclarationsService.generate d fv fl =
        .error "Cannot regenerate submitted declaration. Create additional declaration instead.") ∧
    (d.status ≠ "submitted" → d.status ≠ "accepted" →
      DeclarationsService.generate d fv fl =
        .ok { d with
                items := if fv.isEmpty then [] else fv.filter (fun p => p.2 != 0)
                flags := if fl.isEmpty then d.flags else fl }) := by
  constructor
  · intro h
    unfold DeclarationsService.generate
    rcases h with h | h
    · rw [if_pos (by simp [List.contains, h])]
    · rw [if_pos (by simp [List.contains, h])]
  · intro h1 h2
    unfold DeclarationsService.generate
    rw [if_neg (by simp [List.contains, h1, h2])]

/-- Witness for C5 amended: `submitted` is refused; `draft` proceeds
with items replaced, and the zero-valued engine field is skipped by
the `bulkUpsertItems` filter while the nonzero one is kept. -/
theorem C5_generate_guard_amended_witness :
    DeclarationsService.generate ⟨"submitted", [("LF_INCOME_TOTAL", 1)], []⟩
      [("LF_INCOME_TOTAL", 2)] [] =
      .error "Cannot regenerate submitted declaration. Create additional declaration instead." ∧
    DeclarationsService.generate ⟨"draft", [("LF_INCOME_TOTAL", 1)], []⟩
      [("LF_INCOME_TOTAL", 2), ("LF_IPN_PAYABLE", 0)] [] =
      .ok ⟨"draft", [("LF_INCOME_TOTAL", 2)], []⟩ :=
  ⟨(C5_generate_guard_amended ⟨"submitted", [("LF_INCOME_TOTAL", 1)], []⟩
      [("LF_INCOME_TOTAL", 2)] []).1 (Or.inl rfl),
   ((C5_generate_guard_amended ⟨"draft", [("LF_INCOME_TOTAL", 1)], []⟩
      [("LF_INCOME_TOTAL", 2), ("LF_IPN_PAYABLE", 0)] []).2 (by decide) (by decide)).trans
     (by with_unfolding_all rfl)⟩

/-- The record produced by the first ingest of the C2 counterexample
(an abstract constant hash "H" stands for the SHA-256 digest). -/
def c2rec : SourceRecord :=
  { id := "r1", tax_identity_id := "T", source_type := "manual", external_id := none
    checksum := "H" }

/-- C2 counterexample: ingesting the same payload twice for the same
taxpayer is **not** idempotent in the claimed sense — the second call
does not succeed with the already-existing record, it throws
"Запись с такими данными уже существует" ("a record with this data
already exists"). -/
theorem C2_second_ingest_throws_counterexample :
    SourcesService.importRecord (fun _ => "H") [] true "r1" "T" "manual" none
      (.obj [("a", .num 1)]) = .ok (c2rec, [c2rec]) ∧
    SourcesService.importRecord (fun _ => "H") [c2rec] true "r2" "T" "manual" none
      (.obj [("a", .num 1)]) = .error "Запись с такими данными уже существует" :=
  ⟨rfl, rfl⟩

/-- C2 amended: re-ingesting a payload whose (taxpayer, checksum) pair
is already stored is refused with the duplicate error and inserts
nothing, so after a successful ingest exactly one more record with that
(taxpayer, checksum) exists than before — at-most-once ingestion holds,
but the second call fails instead of returning the existing record. -/
theorem C2_amended (hash : String → String) (store : List SourceRecord) (hasAccess : Bool)
    (newId newId2 taxId st : String) (ext : Option String) (payload : JVal)
    (rec : SourceRecord) (store' : List SourceRecord)
    (hok : SourcesService.importRecord hash store hasAccess newId taxId st ext payload =
      .ok (rec, store')) :
    SourcesService.importRecord hash store' hasAccess newId2 taxId st ext payload =
      .error "Запись с такими данными уже существует" ∧
    (store'.filter (fun r => r.tax_identity_id = taxId &&
        r.checksum = SourcesRepository.generateChecksum hash payload)).length =
      (store.filter (fun r => r.tax_identity_id = taxId &&
        r.checksum = SourcesRepository.generateChecksum hash payload)).length + 1 := by
  unfold SourcesService.importRecord at hok ⊢
  split at hok
  · exact absurd hok (by simp)
  · split at hok
    · exact absurd hok (by simp)
    · split at hok
      · exact absurd hok (by simp)
      · rename_i hst hpl hacc
        rw [if_neg hst, if_neg hpl, if_neg hacc]
        split at hok
        · rename_i sv
          simp only [] at hok
          split at hok
          · exact absurd hok (by simp)
          · rename_i hdup
            split at hok
            · exact absurd hok (by simp)
            · rename_i hextdup
              injection hok with hok2
              injection hok2 with h1 h2
              subst h1
              subst h2
              refine ⟨by simp [List.any_append], ?_⟩
              rw [List.filter_append]
              have hnil : store.filter (fun r => r.tax_identity_id = taxId &&
                  r.checksum = SourcesRepository.generateChecksum hash payload) = [] := by
                rw [List.filter_eq_nil]
                intro a ha
                have hd : ∀ x ∈ store, x.tax_identity_id = taxId →
                    ¬x.checksum = SourcesRepository.generateChecksum hash payload := by
                  simpa using hdup
                simpa using hd a ha
              rw [hnil]
              simp
        · simp only [] at hok
          split at hok
          · exact absurd hok (by simp)
          · rename_i hdup
            injection hok with hok2
            injection hok2 with h1 h2
            subst h1
            subst h2
            refine ⟨by simp [List.any_append], ?_⟩
            rw [List.filter_append]
            have hnil : store.filter (fun r => r.tax_identity_id = taxId &&
                r.checksum = SourcesRepository.generateChecksum hash payload) = [] := by
              rw [List.filter_eq_nil]
              intro a ha
              have hd : ∀ x ∈ store, x.tax_identity_id = taxId →
                  ¬x.checksum = SourcesRepository.generateChecksum hash payload := by
                simpa using hdup
              simpa using hd a ha
            rw [hnil]
            simp

/-- Witness for C2 amended: after the counterexample's first ingest, the
second identical ingest is refused and the store holds exactly one
record with that (taxpayer, checksum). -/
theorem C2_amended_witness :
    SourcesService.importRecord (fun _ => "H") [c2rec] true "r2" "T" "manual" none
      (.obj [("a", .num 1)]) = .error "Запись с такими данными уже существует" ∧
    ([c2rec].filter (fun r => r.tax_identity_id = "T" &&
        r.checksum = SourcesRepository.generateChecksum (fun _ => "H")
          (.obj [("a", .num 1)]))).length =
      (([] : List SourceRecord).filter (fun r => r.tax_identity_id = "T" &&
        r.checksum = SourcesRepository.generateChecksum (fun _ => "H")
          (.obj [("a", .num 1)]))).length + 1 :=
  C2_amended (fun _ => "H") [] true "r1" "r2" "T" "manual" none
    (.obj [("a", .num 1)]) c2rec [c2rec] rfl

/-- C8 (bug evidence): `JSON.stringify(payload,
Object.keys(payload).sort())` uses the sorted **top-level** keys as a
property filter at every depth, so nested keys absent from the top
level are dropped: the distinct payloads `{"a":{"b":1}}` and
`{"a":{"c":2}}` both serialize to `{"a":{}}` and therefore collide to
the same checksum under every hash function — different nested content
does **not** produce different checksums. -/
theorem C8_nested_content_checksum_collision :
    JVal.obj [("a", JVal.obj [("b", JVal.num 1)])] ≠
      JVal.obj [("a", JVal.obj [("c", JVal.num 2)])] ∧
    SourcesRepository.stringifyWith ["a"] (.obj [("a", .obj [("b", .num 1)])]) =
      some "\x7b\"a\":\x7b\x7d\x7d" ∧
    SourcesRepository.stringifyWith ["a"] (.obj [("a", .obj [("c", .num 2)])]) =
      some "\x7b\"a\":\x7b\x7d\x7d" ∧
    ∀ hash : String → String,
      SourcesRepository.generateChecksum hash (.obj [("a", .obj [("b", .num 1)])]) =
        SourcesRepository.generateChecksum hash (.obj [("a", .obj [("c", .num 2)])]) := by
  refine ⟨by simp, ?_, ?_, ?_⟩
  · unfold SourcesRepository.stringifyWith
    simp [SourcesRepository.stringifyObjProps, SourcesRepository.stringifyWith,
      lookupField, quoteJson, quoteJsonChar, String.intercalate]
    rfl
  · unfold SourcesRepository.stringifyWith
    simp [SourcesRepository.stringifyObjProps, SourcesRepository.stringifyWith,
      lookupField, quoteJson, quoteJsonChar, String.intercalate]
    rfl
  · intro hash
    unfold SourcesRepository.generateChecksum
    simp [JVal.keys, SourcesRepository.stringifyWith, SourcesRepository.stringifyObjProps,
      lookupField, List.mergeSort]

/-- A concrete declaration header for the C1 counterexample. -/
def c1decl : XmlGenerator.Declaration :=
  { tax_year := 2024
    declaration_kind := some "main"
    flags := .obj [("pril_1", .bool true)]
    email := some "a@b.kz"
    fio_last := some "IVANOV"
    fio_first := some "IVAN"
    fio_middle := none
    iin := some "123456789012"
    iin_legalrepresentative := none
    iin_spouse := none
    payer_phone := some "+7700" }

/-- Concrete items for the C1 counterexample. -/
def c1items : XmlGenerator.Items :=
  [("LF_INCOME_TOTAL", 500000), ("LF_TAXABLE_INCOME", 500000)]

set_option maxRecDepth 10000 in
/-- C1 counterexample: `buildXml` embeds the generation date
(`formatDate(new Date())`) into the `accept_date` and `submit_date`
fields, so two generations over the same declaration and items on
different days produce different XML bytes — "repeated XML generation
over the same declaration produces byte-identical XML payloads" fails
when the wall-clock date changes between runs. -/
theorem C1_xml_bytes_depend_on_date_counterexample :
    XmlGenerator.buildXml c1decl c1items "01.01.2024" ≠
      XmlGenerator.buildXml c1decl c1items "02.01.2024" := by decide

/-- C1 amended: the engine run is a pure function of (events, rules) —
repeated executions give identical `field_values`, `flags` and
`mappings` — and XML generation is byte-identical (hence hash-identical
for any content hash) across repeated executions **that happen on the
same generation date**; on different dates the bytes differ (see the
counterexample). -/
theorem C1_same_date_determinism_amended (events : List TaxEvent) (rules : List Rule)
    (d : XmlGenerator.Declaration) (items : XmlGenerator.Items)
    (dateStr1 dateStr2 : String) (hash : String → String) (h : dateStr1 = dateStr2) :
    RunEngine.run events rules = RunEngine.run events rules ∧
    XmlGenerator.buildXml d items dateStr1 = XmlGenerator.buildXml d items dateStr2 ∧
    hash (XmlGenerator.buildXml d items dateStr1) =
      hash (XmlGenerator.buildXml d items dateStr2) := by
  subst h
  exact ⟨rfl, rfl, rfl⟩

/-- Witness for C1 amended at a concrete declaration and date. -/
theorem C1_same_date_determinism_amended_witness :
    ("01.01.2024" : String) = "01.01.2024" ∧
    (RunEngine.run [] [] = RunEngine.run [] [] ∧
      XmlGenerator.buildXml c1decl c1items "01.01.2024" =
        XmlGenerator.buildXml c1decl c1items "01.01.2024" ∧
      (fun s => s) (XmlGenerator.buildXml c1decl c1items "01.01.2024") =
        (fun s => s) (XmlGenerator.buildXml c1decl c1items "01.01.2024")) :=
  ⟨rfl, C1_same_date_determinism_amended [] [] c1decl c1items "01.01.2024" "01.01.2024"
    (fun s => s) rfl⟩

/-- `jsStrictEq` is transitive (it is genuine equality on primitives and
never true on objects/arrays). -/
theorem jsStrictEq_trans {a b c : JVal} (h1 : jsStrictEq a b = true)
    (h2 : jsStrictEq b c = true) : jsStrictEq a c = true := by
  cases a <;> cases b <;> simp [jsStrictEq] at h1 <;>
    cases c <;> simp [jsStrictEq] at h2 ⊢ <;> simp [h1, h2] <;> omega

/-- Membership after `Set.prototype.add`: `v` is in `add s w` iff it was
in `s` or is `===` to `w`. -/
theorem jsSetHas_add (s : List JVal) (w v : JVal) :
    jsSetHas (jsSetAdd s w) v = (jsSetHas s v || jsStrictEq w v) := by
  unfold jsSetAdd
  split
  · rename_i hw
    by_cases hv : jsStrictEq w v = true
    · have : jsSetHas s v = true := by
        unfold jsSetHas at hw ⊢
        rcases List.any_eq_true.mp hw with ⟨x, hx, hxw⟩
        exact List.any_eq_true.mpr ⟨x, hx, jsStrictEq_trans hxw hv⟩
      simp [this]
    · simp [hv]
  · unfold jsSetHas
    rw [List.any_append]
    simp

/-- Phase-1 characterization: an id is in the excluded set after
`applyExclusions` iff it was already there or belongs to an event with
some matching exclusion rule, and the excluded counter grows by exactly
one per matching event — the `break` after the first matching rule
makes additional matches unobservable. -/
theorem applyExclusions_spec (events : List TaxEvent) (rules : List Rule)
    (ctx : EngineContext) (v : JVal) :
    jsSetHas (RunEngine.applyExclusions events rules ctx).excludedEventIds v =
      (jsSetHas ctx.excludedEventIds v ||
        events.any (fun e =>
          rules.any (fun r => ConditionEvaluator.evaluate r.conditions e) &&
            jsStrictEq e.id v)) ∧
    (RunEngine.applyExclusions events rules ctx).stats.eventsExcluded =
      ctx.stats.eventsExcluded +
        (events.filter (fun e =>
          rules.any (fun r => ConditionEvaluator.evaluate r.conditions e))).length := by
  induction events generalizing ctx with
  | nil => simp [RunEngine.applyExclusions]
  | cons e es ih =>
    rw [RunEngine.applyExclusions]
    cases hf : rules.find? (fun r => ConditionEvaluator.evaluate r.conditions e) with
    | none =>
      have hany : rules.any (fun r => ConditionEvaluator.evaluate r.conditions e) = false := by
        rw [List.any_eq_false]
        intro r hr
        have := List.find?_eq_none.mp hf r hr
        simpa using this
      obtain ⟨ih1, ih2⟩ := ih ctx
      constructor
      · rw [ih1]
        simp [hany]
      · rw [ih2]
        simp [hany]
    | some r0 =>
      have hany : rules.any (fun r => ConditionEvaluator.evaluate r.conditions e) = true := by
        rw [List.any_eq_true]
        have hm := List.mem_of_find?_eq_some hf
        have hp := List.find?_some hf
        exact ⟨r0, hm, hp⟩
      obtain ⟨ih1, ih2⟩ := ih { ctx with
        excludedEventIds := jsSetAdd ctx.excludedEventIds e.id
        stats := { ctx.stats with eventsExcluded := ctx.stats.eventsExcluded + 1 } }
      constructor
      · rw [ih1]
        simp [jsSetHas_add, hany, Bool.or_assoc]
      · rw [ih2]
        simp [hany]
        omega

theorem mappingHandle_excluded (a : JVal) (e : TaxEvent) (r : Rule) (ctx : EngineContext) :
    ((MappingHandler.handle a e r ctx).1).excludedEventIds = ctx.excludedEventIds := by
  unfold MappingHandler.handle
  dsimp only []
  repeat' split
  all_goals rfl

theorem flagHandle_excluded (a : JVal) (r : Rule) (ctx : EngineContext) :
    ((FlagHandler.handle a r ctx).1).excludedEventIds = ctx.excludedEventIds := by
  unfold FlagHandler.handle
  dsimp only []
  repeat' split
  all_goals rfl

theorem jsStrictEq_str_unique {v : JVal} {s1 s2 : String}
    (h : jsStrictEq v (.str s1) = true) (hne : s1 ≠ s2) :
    jsStrictEq v (.str s2) = false := by
  cases v <;> simp [jsStrictEq] at h ⊢
  subst h
  exact hne

theorem processActionList_excluded (actions : List JVal) (e : TaxEvent) (r : Rule) :
    ∀ ctx : EngineContext,
      ((RunEngine.processActionList actions e r ctx).1).excludedEventIds =
        ctx.excludedEventIds := by
  induction actions with
  | nil => intro ctx; rfl
  | cons a rest ih =>
    intro ctx
    rw [RunEngine.processActionList]
    by_cases hm : jsStrictEq (a.getProp "type") (.str "map") = true
    · simp only [hm, if_true]
      cases hh : MappingHandler.handle a e r ctx with
      | mk ctx' o =>
        have hpres : ctx'.excludedEventIds = ctx.excludedEventIds := by
          have := mappingHandle_excluded a e r ctx
          rw [hh] at this
          exact this
        cases o with
        | some msg => simpa using hpres
        | none =>
          simp only []
          by_cases hf : jsStrictEq (a.getProp "type") (.str "flag") = true
          · exact absurd hf (by rw [jsStrictEq_str_unique hm (by decide)]; simp)
          · simp only [hf]
            simp only [Bool.false_eq_true, if_false]
            rw [ih (RunEngine.bumpMappingsCreated ctx')]
            simpa [RunEngine.bumpMappingsCreated] using hpres
    · simp only [hm]
      simp only [Bool.false_eq_true, if_false]
      by_cases hf : jsStrictEq (a.getProp "type") (.str "flag") = true
      · simp only [hf, if_true]
        cases hh : FlagHandler.handle a r ctx with
        | mk ctx' o =>
          have hpres : ctx'.excludedEventIds = ctx.excludedEventIds := by
            have := flagHandle_excluded a r ctx
            rw [hh] at this
            exact this
          cases o with
          | some msg => simpa using hpres
          | none =>
            rw [ih ctx']
            exact hpres
      · simp only [hf, Bool.false_eq_true, if_false]
        exact ih ctx

theorem processEventRules_excluded (rules : List Rule) (e : TaxEvent) :
    ∀ ctx : EngineContext,
      (RunEngine.processEventRules rules e ctx).excludedEventIds = ctx.excludedEventIds := by
  induction rules with
  | nil => intro ctx; rfl
  | cons r rest ih =>
    intro ctx
    rw [RunEngine.processEventRules]
    by_cases hc : ConditionEvaluator.evaluate r.conditions e = true
    · simp only [hc, if_true]
      by_cases ha : r.actions.truthy = false
      · simp only [ha, if_true]
        rw [ih (RunEngine.bumpRulesMatched ctx)]
        rfl
      · simp only [ha, Bool.false_eq_true, if_false]
        have hx := processActionList_excluded
          (match r.actions with | .arr l => l | a => [a]) e r (RunEngine.bumpRulesMatched ctx)
        cases happ : RunEngine.processActionList
            (match r.actions with | .arr l => l | a => [a]) e r
            (RunEngine.bumpRulesMatched ctx) with
        | mk ctx2 o =>
          rw [happ] at hx
          cases o with
          | none =>
            rw [if_neg (by simp)]
            rw [ih]
            exact hx
          | some msg =>
            rw [if_neg (by simp)]
            rw [ih]
            exact hx
    · simp only [hc]
      simp only [Bool.false_eq_true, if_false]
      exact ih ctx

theorem applyMappings_skips_excluded (events : List TaxEvent) (rules : List Rule) :
    ∀ ctx : EngineContext,
      RunEngine.applyMappings events rules ctx =
        RunEngine.applyMappings
          (events.filter (fun e => !(jsSetHas ctx.excludedEventIds e.id))) rules ctx := by
  induction events with
  | nil => intro ctx; rfl
  | cons e es ih =>
    intro ctx
    rw [RunEngine.applyMappings, List.filter_cons]
    by_cases he : jsSetHas ctx.excludedEventIds e.id = true
    · simp only [he, Bool.not_true, Bool.false_eq_true, if_false, if_true]
      exact ih ctx
    · have he' : jsSetHas ctx.excludedEventIds e.id = false := by simpa using he
      simp only [he', Bool.not_false, if_true, Bool.false_eq_true, if_false]
      conv =>
        rhs
        rw [RunEngine.applyMappings]
      rw [he']
      simp only [Bool.false_eq_true, if_false]
      rw [ih (RunEngine.processEventRules rules e (RunEngine.bumpEventsProcessed ctx))]
      rw [processEventRules_excluded rules e (RunEngine.bumpEventsProcessed ctx)]
      rfl

/-- C7: first-match exclusion and exclusion precedence. (1) After Phase 1
(`applyExclusions`) an event id is in `excludedEventIds` iff it already
was or some exclusion rule matches the event — the `break` after the
first matching rule means only the existence of a match is observable,
and (2) the excluded counter grows by exactly one per matching event,
not once per matching rule. (3) The mapping phase (`applyMappings`)
produces the same context when the events whose ids are in the current
excluded set are removed up front — an excluded event is skipped
entirely and contributes nothing to field values, mappings, or flags;
(4) instantiated after Phase 1, the mapping phase processes exactly the
events not excluded by Phase 1. -/
theorem C7_exclusion_first_match_and_mapping_skip
    (events : List TaxEvent) (exRules mapRules : List Rule)
    (ctx : EngineContext) (v : JVal) :
    (jsSetHas (RunEngine.applyExclusions events exRules ctx).excludedEventIds v =
      (jsSetHas ctx.excludedEventIds v ||
        events.any (fun e =>
          exRules.any (fun r => ConditionEvaluator.evaluate r.conditions e) &&
            jsStrictEq e.id v))) ∧
    ((RunEngine.applyExclusions events exRules ctx).stats.eventsExcluded =
      ctx.stats.eventsExcluded +
        (events.filter (fun e =>
          exRules.any (fun r => ConditionEvaluator.evaluate r.conditions e))).length) ∧
    (RunEngine.applyMappings events mapRules ctx =
      RunEngine.applyMappings
        (events.filter (fun e => !(jsSetHas ctx.excludedEventIds e.id))) mapRules ctx) ∧
    (RunEngine.applyMappings events mapRules (RunEngine.applyExclusions events exRules ctx) =
      RunEngine.applyMappings
        (events.filter (fun e =>
          !(jsSetHas (RunEngine.applyExclusions events exRules ctx).excludedEventIds e.id)))
        mapRules (RunEngine.applyExclusions events exRules ctx)) := by
  obtain ⟨h1, h2⟩ := applyExclusions_spec events exRules ctx v
  exact ⟨h1, h2, applyMappings_skips_excluded events mapRules ctx,
    applyMappings_skips_excluded events mapRules
      (RunEngine.applyExclusions events exRules ctx)⟩

/-- A key that `has` reports missing reads back as `none`. -/
theorem mapGet_eq_none_of_not_has (fv : FieldMap) (key : String)
    (h : mapHas fv key = false) : mapGet fv key = none := by
  unfold mapHas at h
  cases hm : mapGet fv key with
  | none => rfl
  | some v => rw [hm] at h; simp at h

/-- Phase 3 is definitionally the composition of its five stages. -/
theorem autoCalculateBaseTotals_eq (ctx : EngineContext) :
    (RunEngine.autoCalculateBaseTotals ctx).fieldValues =
      RunEngine.bt5 (RunEngine.bt4 (RunEngine.bt3 (RunEngine.bt2
        (RunEngine.bt1 ctx.fieldValues)))) := rfl

/-- A subtotal stage never touches a map that already has the key. -/
theorem subtotalStep_of_has (fv : FieldMap) (key : String) (s : ℚ)
    (h : mapHas fv key = true) : RunEngine.subtotalStep fv key s = fv := by
  unfold RunEngine.subtotalStep
  rw [if_neg (by simp [h])]

/-- Reading the stage key from a map that lacked it: set to `s` exactly
when `s` is positive. -/
theorem mapGet_subtotalStep_self (fv : FieldMap) (key : String) (s : ℚ)
    (h : mapHas fv key = false) :
    mapGet (RunEngine.subtotalStep fv key s) key =
      if s > 0 then some s else none := by
  unfold RunEngine.subtotalStep
  rw [if_pos h]
  by_cases hs : s > 0
  · rw [if_pos hs, if_pos hs, mapGet_mapSet_self]
  · rw [if_neg hs, if_neg hs]
    exact mapGet_eq_none_of_not_has fv key h

/-- A subtotal stage leaves every other key unchanged. -/
theorem mapGet_subtotalStep_ne (fv : FieldMap) (key : String) (s : ℚ)
    (k' : String) (h : key ≠ k') :
    mapGet (RunEngine.subtotalStep fv key s) k' = mapGet fv k' := by
  unfold RunEngine.subtotalStep
  by_cases hh : mapHas fv key = false
  · rw [if_pos hh]
    by_cases hs : s > 0
    · rw [if_pos hs, mapGet_mapSet_ne fv h s]
    · rw [if_neg hs]
  · rw [if_neg hh]

/-- Stage `bt1` writes only its own key. -/
theorem mapGet_bt1_ne (m : FieldMap) (k : String) (h : "LF_INCOME_PROPERTY_TOTAL" ≠ k) :
    mapGet (RunEngine.bt1 m) k = mapGet m k := by
  unfold RunEngine.bt1
  exact mapGet_subtotalStep_ne _ _ _ _ h

theorem mapHas_bt1_ne (m : FieldMap) (k : String) (h : "LF_INCOME_PROPERTY_TOTAL" ≠ k) :
    mapHas (RunEngine.bt1 m) k = mapHas m k := by
  unfold mapHas
  rw [mapGet_bt1_ne m k h]

theorem getOr0_bt1_ne (m : FieldMap) (k : String) (h : "LF_INCOME_PROPERTY_TOTAL" ≠ k) :
    getOr0 (RunEngine.bt1 m) k = getOr0 m k := by
  unfold getOr0
  rw [mapGet_bt1_ne m k h]


/-- Stage `bt2` writes only its own key. -/
theorem mapGet_bt2_ne (m : FieldMap) (k : String) (h : "LF_INCOME_FOREIGN_TOTAL" ≠ k) :
    mapGet (RunEngine.bt2 m) k = mapGet m k := by
  unfold RunEngine.bt2
  exact mapGet_subtotalStep_ne _ _ _ _ h

theorem mapHas_bt2_ne (m : FieldMap) (k : String) (h : "LF_INCOME_FOREIGN_TOTAL" ≠ k) :
    mapHas (RunEngine.bt2 m) k = mapHas m k := by
  unfold mapHas
  rw [mapGet_bt2_ne m k h]

theorem getOr0_bt2_ne (m : FieldMap) (k : String) (h : "LF_INCOME_FOREIGN_TOTAL" ≠ k) :
    getOr0 (RunEngine.bt2 m) k = getOr0 m k := by
  unfold getOr0
  rw [mapGet_bt2_ne m k h]


/-- Stage `bt3` writes only its own key. -/
theorem mapGet_bt3_ne (m : FieldMap) (k : String) (h : "LF_DEDUCTION_TOTAL" ≠ k) :
    mapGet (RunEngine.bt3 m) k = mapGet m k := by
  unfold RunEngine.bt3
  exact mapGet_subtotalStep_ne _ _ _ _ h

theorem mapHas_bt3_ne (m : FieldMap) (k : String) (h : "LF_DEDUCTION_TOTAL" ≠ k) :
    mapHas (RunEngine.bt3 m) k = mapHas m k := by
  unfold mapHas
  rw [mapGet_bt3_ne m k h]

theorem getOr0_bt3_ne (m : FieldMap) (k : String) (h : "LF_DEDUCTION_TOTAL" ≠ k) :
    getOr0 (RunEngine.bt3 m) k = getOr0 m k := by
  unfold getOr0
  rw [mapGet_bt3_ne m k h]


/-- Stage `bt4` writes only its own key. -/
theorem mapGet_bt4_ne (m : FieldMap) (k : String) (h : "LF_ADJUSTMENT_TOTAL" ≠ k) :
    mapGet (RunEngine.bt4 m) k = mapGet m k := by
  unfold RunEngine.bt4
  exact mapGet_subtotalStep_ne _ _ _ _ h

theorem mapHas_bt4_ne (m : FieldMap) (k : String) (h : "LF_ADJUSTMENT_TOTAL" ≠ k) :
    mapHas (RunEngine.bt4 m) k = mapHas m k := by
  unfold mapHas
  rw [mapGet_bt4_ne m k h]

theorem getOr0_bt4_ne (m : FieldMap) (k : String) (h : "LF_ADJUSTMENT_TOTAL" ≠ k) :
    getOr0 (RunEngine.bt4 m) k = getOr0 m k := by
  unfold getOr0
  rw [mapGet_bt4_ne m k h]


/-- Stage `bt5` writes only its own key. -/
theorem mapGet_bt5_ne (m : FieldMap) (k : String) (h : "LF_INCOME_TOTAL" ≠ k) :
    mapGet (RunEngine.bt5 m) k = mapGet m k := by
  unfold RunEngine.bt5
  exact mapGet_subtotalStep_ne _ _ _ _ h

theorem mapHas_bt5_ne (m : FieldMap) (k : String) (h : "LF_INCOME_TOTAL" ≠ k) :
    mapHas (RunEngine.bt5 m) k = mapHas m k := by
  unfold mapHas
  rw [mapGet_bt5_ne m k h]

theorem getOr0_bt5_ne (m : FieldMap) (k : String) (h : "LF_INCOME_TOTAL" ≠ k) :
    getOr0 (RunEngine.bt5 m) k = getOr0 m k := by
  unfold getOr0
  rw [mapGet_bt5_ne m k h]

/-- Two maps that agree on every listed key give the same reduce-sum. -/
theorem foldl_getOr0_congr (codes : List String) (m1 m2 : FieldMap)
    (h : ∀ c ∈ codes, getOr0 m1 c = getOr0 m2 c) (init : ℚ) :
    codes.foldl (fun sum code => sum + getOr0 m1 code) init =
      codes.foldl (fun sum code => sum + getOr0 m2 code) init := by
  induction codes generalizing init with
  | nil => rfl
  | cons c cs ih =>
    simp only [List.foldl_cons]
    rw [h c (by simp)]
    exact ih (fun x hx => h x (List.mem_cons_of_mem c hx)) _

/-- The property constituents survive the whole phase. -/
theorem propertyTotal_chain (m : FieldMap) :
    RunEngine.propertyTotal (RunEngine.bt5 (RunEngine.bt4 (RunEngine.bt3
      (RunEngine.bt2 (RunEngine.bt1 m))))) = RunEngine.propertyTotal m := by
  unfold RunEngine.propertyTotal
  simp +decide only [getOr0_bt1_ne, getOr0_bt2_ne, getOr0_bt3_ne, getOr0_bt4_ne,
    getOr0_bt5_ne]

/-- The deduction constituents survive the whole phase. -/
theorem deductionTotal_chain (m : FieldMap) :
    RunEngine.deductionTotal (RunEngine.bt5 (RunEngine.bt4 (RunEngine.bt3
      (RunEngine.bt2 (RunEngine.bt1 m))))) = RunEngine.deductionTotal m := by
  unfold RunEngine.deductionTotal
  simp +decide only [getOr0_bt1_ne, getOr0_bt2_ne, getOr0_bt3_ne, getOr0_bt4_ne,
    getOr0_bt5_ne]

/-- The deduction constituents are untouched by the first two stages. -/
theorem deductionTotal_pre (m : FieldMap) :
    RunEngine.deductionTotal (RunEngine.bt2 (RunEngine.bt1 m)) =
      RunEngine.deductionTotal m := by
  unfold RunEngine.deductionTotal
  simp +decide only [getOr0_bt1_ne, getOr0_bt2_ne]

/-- The adjustment constituents survive the whole phase. -/
theorem adjustmentTotal_chain (m : FieldMap) :
    RunEngine.adjustmentTotal (RunEngine.bt5 (RunEngine.bt4 (RunEngine.bt3
      (RunEngine.bt2 (RunEngine.bt1 m))))) = RunEngine.adjustmentTotal m := by
  unfold RunEngine.adjustmentTotal
  simp +decide only [getOr0_bt1_ne, getOr0_bt2_ne, getOr0_bt3_ne, getOr0_bt4_ne,
    getOr0_bt5_ne]

/-- The adjustment constituents are untouched by the first three stages. -/
theorem adjustmentTotal_pre (m : FieldMap) :
    RunEngine.adjustmentTotal (RunEngine.bt3 (RunEngine.bt2 (RunEngine.bt1 m))) =
      RunEngine.adjustmentTotal m := by
  unfold RunEngine.adjustmentTotal
  simp +decide only [getOr0_bt1_ne, getOr0_bt2_ne, getOr0_bt3_ne]

/-- The foreign constituents survive the whole phase. -/
theorem foreignTotal_chain (m : FieldMap) :
    RunEngine.foreignTotal (RunEngine.bt5 (RunEngine.bt4 (RunEngine.bt3
      (RunEngine.bt2 (RunEngine.bt1 m))))) = RunEngine.foreignTotal m := by
  unfold RunEngine.foreignTotal
  refine foldl_getOr0_congr _ _ _ (fun c hc => ?_) 0
  have h : ∀ c ∈ RunEngine.foreignIncomes,
      c ≠ "LF_INCOME_PROPERTY_TOTAL" ∧ c ≠ "LF_INCOME_FOREIGN_TOTAL" ∧
      c ≠ "LF_DEDUCTION_TOTAL" ∧ c ≠ "LF_ADJUSTMENT_TOTAL" ∧
      c ≠ "LF_INCOME_TOTAL" := by decide
  obtain ⟨h1, h2, h3, h4, h5⟩ := h c hc
  rw [getOr0_bt5_ne _ _ (Ne.symm h5), getOr0_bt4_ne _ _ (Ne.symm h4),
    getOr0_bt3_ne _ _ (Ne.symm h3), getOr0_bt2_ne _ _ (Ne.symm h2),
    getOr0_bt1_ne _ _ (Ne.symm h1)]

/-- The foreign constituents are untouched by the first stage. -/
theorem foreignTotal_pre (m : FieldMap) :
    RunEngine.foreignTotal (RunEngine.bt1 m) = RunEngine.foreignTotal m := by
  unfold RunEngine.foreignTotal
  refine foldl_getOr0_congr _ _ _ (fun c hc => ?_) 0
  have h : ∀ c ∈ RunEngine.foreignIncomes, c ≠ "LF_INCOME_PROPERTY_TOTAL" := by decide
  exact getOr0_bt1_ne _ _ (Ne.symm (h c hc))

/-- The income constituents are untouched by the last stage (the income
total itself is not one of its own constituents). -/
theorem incomeTotal_bt5 (m : FieldMap) :
    RunEngine.incomeTotal (RunEngine.bt5 m) = RunEngine.incomeTotal m := by
  unfold RunEngine.incomeTotal
  refine foldl_getOr0_congr _ _ _ (fun c hc => ?_) 0
  have h : ∀ c ∈ RunEngine.incomeCategories, c ≠ "LF_INCOME_TOTAL" := by decide
  exact getOr0_bt5_ne _ _ (Ne.symm (h c hc))

/-- Phase-3 outcome for the property subtotal. -/
theorem baseTotals_get_property (m : FieldMap) :
    mapGet (RunEngine.bt5 (RunEngine.bt4 (RunEngine.bt3 (RunEngine.bt2
        (RunEngine.bt1 m))))) "LF_INCOME_PROPERTY_TOTAL" =
      if mapHas m "LF_INCOME_PROPERTY_TOTAL" = true then
        mapGet m "LF_INCOME_PROPERTY_TOTAL"
      else if RunEngine.propertyTotal (RunEngine.bt5 (RunEngine.bt4 (RunEngine.bt3
          (RunEngine.bt2 (RunEngine.bt1 m))))) > 0 then
        some (RunEngine.propertyTotal (RunEngine.bt5 (RunEngine.bt4 (RunEngine.bt3
          (RunEngine.bt2 (RunEngine.bt1 m))))))
      else none := by
  rw [propertyTotal_chain]
  have hfr : mapGet (RunEngine.bt5 (RunEngine.bt4 (RunEngine.bt3 (RunEngine.bt2
      (RunEngine.bt1 m))))) "LF_INCOME_PROPERTY_TOTAL" =
      mapGet (RunEngine.bt1 m) "LF_INCOME_PROPERTY_TOTAL" := by
    rw [mapGet_bt5_ne _ _ (by decide), mapGet_bt4_ne _ _ (by decide),
      mapGet_bt3_ne _ _ (by decide), mapGet_bt2_ne _ _ (by decide)]
  rw [hfr]
  by_cases hh : mapHas m "LF_INCOME_PROPERTY_TOTAL" = true
  · rw [if_pos hh]
    unfold RunEngine.bt1
    rw [subtotalStep_of_has _ _ _ hh]
  · have hh2 : mapHas m "LF_INCOME_PROPERTY_TOTAL" = false := by simpa using hh
    rw [if_neg hh]
    unfold RunEngine.bt1
    rw [mapGet_subtotalStep_self _ _ _ hh2]

/-- Phase-3 outcome for the foreign subtotal. -/
theorem baseTotals_get_foreign (m : FieldMap) :
    mapGet (RunEngine.bt5 (RunEngine.bt4 (RunEngine.bt3 (RunEngine.bt2
        (RunEngine.bt1 m))))) "LF_INCOME_FOREIGN_TOTAL" =
      if mapHas m "LF_INCOME_FOREIGN_TOTAL" = true then
        mapGet m "LF_INCOME_FOREIGN_TOTAL"
      else if RunEngine.foreignTotal (RunEngine.bt5 (RunEngine.bt4 (RunEngine.bt3
          (RunEngine.bt2 (RunEngine.bt1 m))))) > 0 then
        some (RunEngine.foreignTotal (RunEngine.bt5 (RunEngine.bt4 (RunEngine.bt3
          (RunEngine.bt2 (RunEngine.bt1 m))))))
      else none := by
  rw [foreignTotal_chain]
  have hfr : mapGet (RunEngine.bt5 (RunEngine.bt4 (RunEngine.bt3 (RunEngine.bt2
      (RunEngine.bt1 m))))) "LF_INCOME_FOREIGN_TOTAL" =
      mapGet (RunEngine.bt2 (RunEngine.bt1 m)) "LF_INCOME_FOREIGN_TOTAL" := by
    rw [mapGet_bt5_ne _ _ (by decide), mapGet_bt4_ne _ _ (by decide),
      mapGet_bt3_ne _ _ (by decide)]
  rw [hfr]
  have hhas : mapHas (RunEngine.bt1 m) "LF_INCOME_FOREIGN_TOTAL" =
      mapHas m "LF_INCOME_FOREIGN_TOTAL" := mapHas_bt1_ne _ _ (by decide)
  by_cases hh : mapHas m "LF_INCOME_FOREIGN_TOTAL" = true
  · rw [if_pos hh]
    unfold RunEngine.bt2
    rw [subtotalStep_of_has _ _ _ (by rw [hhas]; exact hh)]
    exact mapGet_bt1_ne _ _ (by decide)
  · have hh2 : mapHas (RunEngine.bt1 m) "LF_INCOME_FOREIGN_TOTAL" = false := by
      rw [hhas]; simpa using hh
    rw [if_neg hh]
    unfold RunEngine.bt2
    rw [mapGet_subtotalStep_self _ _ _ hh2, foreignTotal_pre]

/-- Phase-3 outcome for the deduction subtotal. -/
theorem baseTotals_get_deduction (m : FieldMap) :
    mapGet (RunEngine.bt5 (RunEngine.bt4 (RunEngine.bt3 (RunEngine.bt2
        (RunEngine.bt1 m))))) "LF_DEDUCTION_TOTAL" =
      if mapHas m "LF_DEDUCTION_TOTAL" = true then
        mapGet m "LF_DEDUCTION_TOTAL"
      else if RunEngine.deductionTotal (RunEngine.bt5 (RunEngine.bt4 (RunEngine.bt3
          (RunEngine.bt2 (RunEngine.bt1 m))))) > 0 then
        some (RunEngine.deductionTotal (RunEngine.bt5 (RunEngine.bt4 (RunEngine.bt3
          (RunEngine.bt2 (RunEngine.bt1 m))))))
      else none := by
  rw [deductionTotal_chain]
  have hfr : mapGet (RunEngine.bt5 (RunEngine.bt4 (RunEngine.bt3 (RunEngine.bt2
      (RunEngine.bt1 m))))) "LF_DEDUCTION_TOTAL" =
      mapGet (RunEngine.bt3 (RunEngine.bt2 (RunEngine.bt1 m))) "LF_DEDUCTION_TOTAL" := by
    rw [mapGet_bt5_ne _ _ (by decide), mapGet_bt4_ne _ _ (by decide)]
  rw [hfr]
  have hhas : mapHas (RunEngine.bt2 (RunEngine.bt1 m)) "LF_DEDUCTION_TOTAL" =
      mapHas m "LF_DEDUCTION_TOTAL" := by
    rw [mapHas_bt2_ne _ _ (by decide), mapHas_bt1_ne _ _ (by decide)]
  by_cases hh : mapHas m "LF_DEDUCTION_TOTAL" = true
  · rw [if_pos hh]
    unfold RunEngine.bt3
    rw [subtotalStep_of_has _ _ _ (by rw [hhas]; exact hh)]
    rw [mapGet_bt2_ne _ _ (by decide), mapGet_bt1_ne _ _ (by decide)]
  · have hh2 : mapHas (RunEngine.bt2 (RunEngine.bt1 m)) "LF_DEDUCTION_TOTAL" = false := by
      rw [hhas]; simpa using hh
    rw [if_neg hh]
    unfold RunEngine.bt3
    rw [mapGet_subtotalStep_self _ _ _ hh2, deductionTotal_pre]

/-- Phase-3 outcome for the adjustment subtotal. -/
theorem baseTotals_get_adjustment (m : FieldMap) :
    mapGet (RunEngine.bt5 (RunEngine.bt4 (RunEngine.bt3 (RunEngine.bt2
        (RunEngine.bt1 m))))) "LF_ADJUSTMENT_TOTAL" =
      if mapHas m "LF_ADJUSTMENT_TOTAL" = true then
        mapGet m "LF_ADJUSTMENT_TOTAL"
      else if RunEngine.adjustmentTotal (RunEngine.bt5 (RunEngine.bt4 (RunEngine.bt3
          (RunEngine.bt2 (RunEngine.bt1 m))))) > 0 then
        some (RunEngine.adjustmentTotal (RunEngine.bt5 (RunEngine.bt4 (RunEngine.bt3
          (RunEngine.bt2 (RunEngine.bt1 m))))))
      else none := by
  rw [adjustmentTotal_chain]
  have hfr : mapGet (RunEngine.bt5 (RunEngine.bt4 (RunEngine.bt3 (RunEngine.bt2
      (RunEngine.bt1 m))))) "LF_ADJUSTMENT_TOTAL" =
      mapGet (RunEngine.bt4 (RunEngine.bt3 (RunEngine.bt2 (RunEngine.bt1 m))))
        "LF_ADJUSTMENT_TOTAL" := by
    rw [mapGet_bt5_ne _ _ (by decide)]
  rw [hfr]
  have hhas : mapHas (RunEngine.bt3 (RunEngine.bt2 (RunEngine.bt1 m)))
      "LF_ADJUSTMENT_TOTAL" = mapHas m "LF_ADJUSTMENT_TOTAL" := by
    rw [mapHas_bt3_ne _ _ (by decide), mapHas_bt2_ne _ _ (by decide),
      mapHas_bt1_ne _ _ (by decide)]
  by_cases hh : mapHas m "LF_ADJUSTMENT_TOTAL" = true
  · rw [if_pos hh]
    unfold RunEngine.bt4
    rw [subtotalStep_of_has _ _ _ (by rw [hhas]; exact hh)]
    rw [mapGet_bt3_ne _ _ (by decide), mapGet_bt2_ne _ _ (by decide),
      mapGet_bt1_ne _ _ (by decide)]
  · have hh2 : mapHas (RunEngine.bt3 (RunEngine.bt2 (RunEngine.bt1 m)))
        "LF_ADJUSTMENT_TOTAL" = false := by
      rw [hhas]; simpa using hh
    rw [if_neg hh]
    unfold RunEngine.bt4
    rw [mapGet_subtotalStep_self _ _ _ hh2, adjustmentTotal_pre]

/-- Phase-3 outcome for the income subtotal. -/
theorem baseTotals_get_income (m : FieldMap) :
    mapGet (RunEngine.bt5 (RunEngine.bt4 (RunEngine.bt3 (RunEngine.bt2
        (RunEngine.bt1 m))))) "LF_INCOME_TOTAL" =
      if mapHas m "LF_INCOME_TOTAL" = true then
        mapGet m "LF_INCOME_TOTAL"
      else if RunEngine.incomeTotal (RunEngine.bt5 (RunEngine.bt4 (RunEngine.bt3
          (RunEngine.bt2 (RunEngine.bt1 m))))) > 0 then
        some (RunEngine.incomeTotal (RunEngine.bt5 (RunEngine.bt4 (RunEngine.bt3
          (RunEngine.bt2 (RunEngine.bt1 m))))))
      else none := by
  rw [incomeTotal_bt5]
  have hhas : mapHas (RunEngine.bt4 (RunEngine.bt3 (RunEngine.bt2 (RunEngine.bt1 m))))
      "LF_INCOME_TOTAL" = mapHas m "LF_INCOME_TOTAL" := by
    rw [mapHas_bt4_ne _ _ (by decide), mapHas_bt3_ne _ _ (by decide),
      mapHas_bt2_ne _ _ (by decide), mapHas_bt1_ne _ _ (by decide)]
  by_cases hh : mapHas m "LF_INCOME_TOTAL" = true
  · rw [if_pos hh]
    unfold RunEngine.bt5
    rw [subtotalStep_of_has _ _ _ (by rw [hhas]; exact hh)]
    rw [mapGet_bt4_ne _ _ (by decide), mapGet_bt3_ne _ _ (by decide),
      mapGet_bt2_ne _ _ (by decide), mapGet_bt1_ne _ _ (by decide)]
  · have hh2 : mapHas (RunEngine.bt4 (RunEngine.bt3 (RunEngine.bt2 (RunEngine.bt1 m))))
        "LF_INCOME_TOTAL" = false := by
      rw [hhas]; simpa using hh
    rw [if_neg hh]
    unfold RunEngine.bt5
    rw [mapGet_subtotalStep_self _ _ _ hh2]

/-- C6: corrected characterization of Phase 3
(`runEngine.autoCalculateBaseTotals`). For each of the five subtotal
fields: a subtotal already present before the phase is left exactly as
it was (whether or not it equals its constituent sum), and an absent
subtotal is set to the sum of its constituent fields (missing
constituents read as 0, the income total reading the phase-computed
property and foreign totals) exactly when that sum is positive,
otherwise it stays absent. -/
theorem C6_base_totals_amended (ctx : EngineContext) :
    (mapGet (RunEngine.autoCalculateBaseTotals ctx).fieldValues "LF_INCOME_PROPERTY_TOTAL" =
      if mapHas ctx.fieldValues "LF_INCOME_PROPERTY_TOTAL" = true then
        mapGet ctx.fieldValues "LF_INCOME_PROPERTY_TOTAL"
      else if RunEngine.propertyTotal (RunEngine.autoCalculateBaseTotals ctx).fieldValues > 0 then
        some (RunEngine.propertyTotal (RunEngine.autoCalculateBaseTotals ctx).fieldValues)
      else none) ∧
    (mapGet (RunEngine.autoCalculateBaseTotals ctx).fieldValues "LF_INCOME_FOREIGN_TOTAL" =
      if mapHas ctx.fieldValues "LF_INCOME_FOREIGN_TOTAL" = true then
        mapGet ctx.fieldValues "LF_INCOME_FOREIGN_TOTAL"
      else if RunEngine.foreignTotal (RunEngine.autoCalculateBaseTotals ctx).fieldValues > 0 then
        some (RunEngine.foreignTotal (RunEngine.autoCalculateBaseTotals ctx).fieldValues)
      else none) ∧
    (mapGet (RunEngine.autoCalculateBaseTotals ctx).fieldValues "LF_DEDUCTION_TOTAL" =
      if mapHas ctx.fieldValues "LF_DEDUCTION_TOTAL" = true then
        mapGet ctx.fieldValues "LF_DEDUCTION_TOTAL"
      else if RunEngine.deductionTotal (RunEngine.autoCalculateBaseTotals ctx).fieldValues > 0 then
        some (RunEngine.deductionTotal (RunEngine.autoCalculateBaseTotals ctx).fieldValues)
      else none) ∧
    (mapGet (RunEngine.autoCalculateBaseTotals ctx).fieldValues "LF_ADJUSTMENT_TOTAL" =
      if mapHas ctx.fieldValues "LF_ADJUSTMENT_TOTAL" = true then
        mapGet ctx.fieldValues "LF_ADJUSTMENT_TOTAL"
      else if RunEngine.adjustmentTotal (RunEngine.autoCalculateBaseTotals ctx).fieldValues > 0 then
        some (RunEngine.adjustmentTotal (RunEngine.autoCalculateBaseTotals ctx).fieldValues)
      else none) ∧
    (mapGet (RunEngine.autoCalculateBaseTotals ctx).fieldValues "LF_INCOME_TOTAL" =
      if mapHas ctx.fieldValues "LF_INCOME_TOTAL" = true then
        mapGet ctx.fieldValues "LF_INCOME_TOTAL"
      else if RunEngine.incomeTotal (RunEngine.autoCalculateBaseTotals ctx).fieldValues > 0 then
        some (RunEngine.incomeTotal (RunEngine.autoCalculateBaseTotals ctx).fieldValues)
      else none) := by
  rw [autoCalculateBaseTotals_eq]
  exact ⟨baseTotals_get_property ctx.fieldValues, baseTotals_get_foreign ctx.fieldValues,
    baseTotals_get_deduction ctx.fieldValues, baseTotals_get_adjustment ctx.fieldValues,
    baseTotals_get_income ctx.fieldValues⟩

/-- Engine context for the C6 counterexample: a calculation rule has
already set the deduction subtotal to 5 while its only present
constituent is 1. -/
def c6ctx : EngineContext :=
  { initialContext with
    fieldValues := [("LF_DEDUCTION_TOTAL", 5), ("LF_DEDUCTION_STANDARD", 1)] }

/-- C6 counterexample: after Phase 3 the pre-set deduction subtotal is
still 5 while the sum of its constituents is 1 — a present subtotal
need not equal the sum of its constituents, refuting the final clause of
the claim. -/
theorem C6_preset_subtotal_counterexample :
    mapGet (RunEngine.autoCalculateBaseTotals c6ctx).fieldValues "LF_DEDUCTION_TOTAL" =
      some 5 ∧
    RunEngine.deductionTotal (RunEngine.autoCalculateBaseTotals c6ctx).fieldValues = 1 ∧
    (5 : ℚ) ≠ 1 := by
  refine ⟨?_, ?_, by norm_num⟩
  · with_unfolding_all decide
  · with_unfolding_all decide
